import Mathlib

/-!
Shallow embedding of the citation-resolution pipeline of `src/app.py`
(Bibtext-Tool).  Pure Python string/dict manipulation is translated into
executable Lean definitions; the four network adapters (arXiv client,
Crossref, OpenAlex, Semantic Scholar) and the external fuzzy scorer
(`rapidfuzz.fuzz.token_set_ratio`) are modelled as an explicit environment
of functions, and every adapter invocation is logged in a call trace.
Python exceptions are modelled with `Except String`; Python `dict`/JSON
payloads with an inductive `Json` type carrying Python truthiness,
attribute and indexing semantics.  Regex matching is implemented directly
with the backtracking behaviour of the concrete patterns of the source;
`\s`, `\w` and `\d` use their ASCII meaning (plus the Latin letter ranges
for `\w`), which covers every literal appearing in the source file.
Fuzzy scores are modelled as integers.
-/

namespace App

/-! ## Python string primitives -/

/-- The whitespace characters of Python `str.strip()` / `str.split()` /
regex `\s` (the Unicode whitespace set of CPython). -/
def isPySpace (c : Char) : Bool :=
  c == ' ' || c == '\t' || c == '\n' || c == '\r' || c == '\x0b' || c == '\x0c' ||
  c == '\x1c' || c == '\x1d' || c == '\x1e' || c == '\x1f' || c == '\u0085' ||
  c == '\u00A0' || c == '\u1680' || (0x2000 ≤ c.val && c.val ≤ 0x200A) ||
  c == '\u2028' || c == '\u2029' || c == '\u202F' || c == '\u205F' || c == '\u3000'

/-- Word characters for regex `\b` (`\w`): ASCII alphanumerics, underscore,
and the Latin/IPA letter ranges (the only non-ASCII letters that occur in
the source's literals). -/
def isWordChar (c : Char) : Bool :=
  c.isAlphanum || c == '_' ||
  (0xC0 ≤ c.val && c.val ≤ 0x2AF && c.val ≠ 0xD7 && c.val ≠ 0xF7) ||
  c.val == 0xAA || c.val == 0xB2 || c.val == 0xB3 || c.val == 0xB5 ||
  c.val == 0xB9 || c.val == 0xBA

/-- `s.lstrip()` on a character list, for an arbitrary character predicate. -/
def lstripBy (p : Char → Bool) (cs : List Char) : List Char := cs.dropWhile p

/-- `s.rstrip()` on a character list. -/
def rstripBy (p : Char → Bool) (cs : List Char) : List Char :=
  (cs.reverse.dropWhile p).reverse

/-- Python `s.strip()` (default whitespace). -/
def pyStrip (s : String) : String :=
  String.mk (rstripBy isPySpace (lstripBy isPySpace s.toList))

/-- Python `s.lstrip()`. -/
def pyLStrip (s : String) : String := String.mk (lstripBy isPySpace s.toList)

/-- Python `s.rstrip()`. -/
def pyRStrip (s : String) : String := String.mk (rstripBy isPySpace s.toList)

/-- Python `s.rstrip(".")`. -/
def pyRStripDots (s : String) : String :=
  String.mk (rstripBy (fun c => c == '.') s.toList)

/-- Python `s.rstrip(",")`. -/
def pyRStripCommas (s : String) : String :=
  String.mk (rstripBy (fun c => c == ',') s.toList)

/-- Python `s.strip('"')`. -/
def pyStripQuoteChar (s : String) : String :=
  String.mk (rstripBy (fun c => c == '"') (lstripBy (fun c => c == '"') s.toList))

theorem length_dropWhile_le (p : Char → Bool) (l : List Char) :
    (l.dropWhile p).length ≤ l.length :=
  (List.dropWhile_sublist _).length_le

theorem length_takeWhile_le (p : Char → Bool) (l : List Char) :
    (l.takeWhile p).length ≤ l.length :=
  (List.takeWhile_sublist _).length_le

/-- `re.sub(r"\s+", " ", ·)` on a character list: collapse each whitespace
run into a single space (structurally, tracking whether the previous
character was whitespace). -/
def collapseWSGo : Bool → List Char → List Char
  | _, [] => []
  | prevSpace, c :: rest =>
    if isPySpace c then
      if prevSpace then collapseWSGo true rest
      else ' ' :: collapseWSGo true rest
    else c :: collapseWSGo false rest

/-- `re.sub(r"\s+", " ", ·)` on a character list. -/
def collapseWSList (cs : List Char) : List Char := collapseWSGo false cs

/-- `re.sub(r"\s+", " ", s)`. -/
def collapseWS (s : String) : String := String.mk (collapseWSList s.toList)

/-- Python `s.split()`, structurally, with the current token reversed in
the accumulator. -/
def pySplitWSGo : List Char → List Char → List String
  | acc, [] => if acc.isEmpty then [] else [String.mk acc.reverse]
  | acc, c :: rest =>
    if isPySpace c then
      if acc.isEmpty then pySplitWSGo [] rest
      else String.mk acc.reverse :: pySplitWSGo [] rest
    else pySplitWSGo (c :: acc) rest

/-- Python `s.split()`: split on whitespace runs, dropping empty pieces. -/
def pySplitWSList (cs : List Char) : List String := pySplitWSGo [] cs

/-- Python `s.split()`. -/
def pySplitWS (s : String) : List String := pySplitWSList s.toList

/-- Split a character list on a set of single separator characters, keeping
empty pieces, as `re.split(r"[..]", s)` / `str.split(sep)` do. -/
def splitOnChars (seps : List Char) : List Char → List String
  | [] => [""]
  | c :: rest =>
    if seps.contains c then "" :: splitOnChars seps rest
    else
      match splitOnChars seps rest with
      | [] => [String.mk [c]]
      | piece :: more => String.mk (c :: piece.toList) :: more

/-- Python `str.lower()` (ASCII; non-ASCII letters are only ever fed to
ASCII-only filters in this program, so the distinction is unobservable). -/
def pyLower (s : String) : String := String.mk (s.toList.map Char.toLower)

/-- Python `"\n".join`-style join. -/
def joinLines (ls : List String) : String := String.intercalate "\n" ls

/-- First-maximum-by-length, as Python `max(xs, key=len)` (first wins ties). -/
def maxByLenFirst (x : String) (xs : List String) : String :=
  xs.foldl (fun best p => if p.length > best.length then p else best) x

/-- Kernel-computable substring test (`pat` occurs in `s`). -/
def isPrefOf : List Char → List Char → Bool
  | [], _ => true
  | _ :: _, [] => false
  | a :: as, b :: bs => a == b && isPrefOf as bs

/-- Does `pat` occur as a contiguous substring of `s`? -/
def hasSub : List Char → List Char → Bool
  | pat, [] => isPrefOf pat []
  | pat, c :: rest => isPrefOf pat (c :: rest) || hasSub pat rest

/-- String-level substring test. -/
def containsSub (s pat : String) : Bool := hasSub pat.toList s.toList

/-- Fueled scanner behind `pyReplace`: left-to-right, non-overlapping,
replacements are not rescanned — Python `str.replace` for a non-empty
pattern (every call site in `app.py` uses a non-empty literal pattern). -/
def pyReplaceGo : Nat → List Char → List Char → List Char → List Char
  | 0, _, _, s => s
  | _ + 1, _, _, [] => []
  | fuel + 1, pat, rep, c :: rest =>
    if isPrefOf pat (c :: rest) then
      rep ++ pyReplaceGo fuel pat rep ((c :: rest).drop pat.length)
    else
      c :: pyReplaceGo fuel pat rep rest

/-- Python `s.replace(pat, rep)` for non-empty `pat`, kernel-computable. -/
def pyReplace (s pat rep : String) : String :=
  String.mk (pyReplaceGo s.toList.length pat.toList rep.toList s.toList)

/-- Zero-left-pad a natural number to a given width (Python `f"{n:0wd}"`,
non-negative case). -/
def padNat (width : Nat) (n : Nat) : String :=
  let s := toString n
  String.mk (List.replicate (width - s.length) '0') ++ s

/-- Python `f"{n:04d}"` for integers (sign counts towards the width). -/
def pad4Int (n : Int) : String :=
  if n < 0 then "-" ++ padNat 3 n.natAbs else padNat 4 n.natAbs

/-- Python `f"{n:02d}"` for integers. -/
def pad2Int (n : Int) : String :=
  if n < 0 then "-" ++ padNat 1 n.natAbs else padNat 2 n.natAbs

/-! ## JSON values with Python semantics

Crossref / OpenAlex / Semantic Scholar payloads reach the pure code as
parsed JSON (`requests.Response.json()`), i.e. as dynamically typed Python
values.  JSON numbers are modelled as integers (none of the claims turns
on float payloads). -/

inductive Json where
  | null : Json
  | bool : Bool → Json
  | num : Int → Json
  | str : String → Json
  | arr : List Json → Json
  | obj : List (String × Json) → Json

/-- Python truthiness of a JSON value. -/
def truthy : Json → Bool
  | .null => false
  | .bool b => b
  | .num n => n != 0
  | .str s => s != ""
  | .arr xs => !xs.isEmpty
  | .obj kvs => !kvs.isEmpty

/-- Python `a or b` under truthiness. -/
def pyOr (a b : Json) : Json := if truthy a then a else b

/-- Truthiness of an `Optional[...]` Python value holding a JSON payload. -/
def optJsonTruthy : Option Json → Bool
  | none => false
  | some j => truthy j

/-- Truthiness of an `Optional[str]`. -/
def optStrTruthy : Option String → Bool
  | none => false
  | some s => s != ""

/-- Truthiness of an `Optional[int]`. -/
def optIntTruthy : Option Int → Bool
  | none => false
  | some n => n != 0

/-- Python `m.get(k)`: `None` when the key is missing, `AttributeError`
when the receiver is not a dict. -/
def pyGet (j : Json) (k : String) : Except String Json :=
  match j with
  | .obj kvs => .ok ((kvs.lookup k).getD .null)
  | _ => .error "AttributeError"

/-- Python `x[0]`: first element of a list, first character of a string,
`KeyError`/`TypeError` otherwise (a JSON dict never has the int key `0`). -/
def pyIndex0 (j : Json) : Except String Json :=
  match j with
  | .arr (x :: _) => .ok x
  | .arr [] => .error "IndexError"
  | .str s =>
    match s.toList with
    | c :: _ => .ok (.str (String.mk [c]))
    | [] => .error "IndexError"
  | .obj _ => .error "KeyError"
  | _ => .error "TypeError"

/-- Python `x[i]` for a natural index. -/
def pyIndexAt (j : Json) (i : Nat) : Except String Json :=
  match j with
  | .arr xs =>
    match xs.drop i with
    | x :: _ => .ok x
    | [] => .error "IndexError"
  | .str s =>
    match s.toList.drop i with
    | c :: _ => .ok (.str (String.mk [c]))
    | [] => .error "IndexError"
  | .obj _ => .error "KeyError"
  | _ => .error "TypeError"

/-- Python `len(x)`. -/
def pyLen (j : Json) : Except String Nat :=
  match j with
  | .arr xs => .ok xs.length
  | .str s => .ok s.length
  | .obj kvs => .ok kvs.length
  | _ => .error "TypeError"

/-- Python `for x in j`: lists iterate elements, strings iterate their
characters, dicts iterate their keys; anything else raises. -/
def pyIter (j : Json) : Except String (List Json) :=
  match j with
  | .arr xs => .ok xs
  | .str s => .ok (s.toList.map (fun c => .str (String.mk [c])))
  | .obj kvs => .ok (kvs.map (fun kv => .str kv.1))
  | _ => .error "TypeError"

/-- Python `repr` of a JSON value (best effort; only reachable through
`str()` of list/dict values, which no claim evaluates concretely). -/
def pyRepr : Json → String
  | .null => "None"
  | .bool true => "True"
  | .bool false => "False"
  | .num n => toString n
  | .str s => "'" ++ s ++ "'"
  | .arr xs => "[" ++ String.intercalate ", " (xs.attach.map (fun x => pyRepr x.1)) ++ "]"
  | .obj kvs =>
    "\x7b" ++
      String.intercalate ", "
        (kvs.attach.map (fun kv => "'" ++ kv.1.1 ++ "': " ++ pyRepr kv.1.2)) ++
    "\x7d"
termination_by j => sizeOf j
decreasing_by
  · have h := List.sizeOf_lt_of_mem x.2
    simp only [Json.arr.sizeOf_spec]
    omega
  · obtain ⟨⟨k, v⟩, hm⟩ := kv
    have h := List.sizeOf_lt_of_mem hm
    simp only [Prod.mk.sizeOf_spec] at h
    simp only [Json.obj.sizeOf_spec]
    omega

/-- Python `str()` of a JSON value. -/
def pyStrOf : Json → String
  | .null => "None"
  | .bool true => "True"
  | .bool false => "False"
  | .num n => toString n
  | .str s => s
  | .arr xs => pyRepr (.arr xs)
  | .obj kvs => pyRepr (.obj kvs)

/-- Python `(j or "")` followed by a string method: `AttributeError` when a
truthy non-string got through. -/
def getStr (j : Json) : Except String String :=
  match pyOr j (.str "") with
  | .str s => .ok s
  | _ => .error "AttributeError"

/-- Python `int(x)` on a JSON scalar. -/
def pyToInt (j : Json) : Except String Int :=
  match j with
  | .num n => .ok n
  | .bool b => .ok (if b then 1 else 0)
  | .str s =>
    let t := pyStrip s
    let (sgn, ds) :=
      match t.toList with
      | '-' :: r => ((-1 : Int), r)
      | '+' :: r => ((1 : Int), r)
      | r => ((1 : Int), r)
    if ds ≠ [] && ds.all Char.isDigit then
      .ok (sgn * Int.ofNat (ds.foldl (fun acc c => acc * 10 + (c.toNat - '0'.toNat)) 0))
    else .error "ValueError"
  | _ => .error "TypeError"

/-- `str(x)` for Python `Optional[int]` (`None` prints as `"None"`). -/
def pyStrOptNat : Option Nat → String
  | none => "None"
  | some n => toString n

/-! ## Basic helpers of `app.py` -/

/-- `_norm` (app.py:27): lowercase, collapse whitespace, keep only
`[a-z0-9]` and whitespace, collapse again, strip. -/
def _norm (s : String) : String :=
  let s := pyLower (pyStrip s)
  let s := collapseWS s
  let s := String.mk (s.toList.map (fun c =>
    if ('a' ≤ c && c ≤ 'z') || c.isDigit || isPySpace c then c else ' '))
  let s := collapseWS s
  pyStrip s

/-- `_norm` applied to a dynamically typed value, as `_norm(title)` is in
the source: `(s or "")` then string methods, raising on a truthy
non-string. -/
def _normJ (j : Json) : Except String String :=
  match pyOr j (.str "") with
  | .str s => .ok (_norm s)
  | _ => .error "AttributeError"

/-- `latex_escape` (app.py:35): escape `\\ & % _ # $`, backslash first. -/
def latex_escape (s : String) : String :=
  pyReplace (pyReplace (pyReplace (pyReplace (pyReplace (pyReplace
    s "\\" "\\\\") "&" "\\&") "%" "\\%") "_" "\\_") "#" "\\#") "$" "\\$"

/-- `latex_escape` applied to a dynamic dict value (raises on non-string,
as `s.replace` would; the value is known truthy, hence not `None`). -/
def latexEscapeJ (v : Json) : Except String String :=
  match v with
  | .str s => .ok (latex_escape s)
  | _ => .error "AttributeError"

/-- `make_key` (app.py:124).  `authors[0].split()[-1]` raises `IndexError`
when the first author has no whitespace-separated tokens; `_norm(title)`
raises when the title is a truthy non-string. -/
def make_key (authors : List String) (year : Option Int) (title : Json) :
    Except String String :=
  match
    (match authors with
     | [] => .ok "paper"
     | a0 :: _ =>
       match (pySplitWS a0).getLast? with
       | none => .error "IndexError"
       | some t =>
         let l := pyLower (if t = "" then "paper" else t)
         .ok (String.mk (l.toList.filter (fun c =>
           ('a' ≤ c && c ≤ 'z') || c.isDigit))) : Except String String)
  with
  | .error e => .error e
  | .ok last =>
    let y := match year with
      | some n => if n ≠ 0 then toString n else "noyear"
      | none => "noyear"
    match _normJ title with
    | .error e => .error e
    | .ok nt =>
      let first := ((pySplitWS nt).head?).getD "work"
      .ok (last ++ y ++ first)

/-- `ris_escape` (app.py:140): `str()`, newlines to spaces, strip,
collapse whitespace.  `None` short-circuits to the empty string. -/
def ris_escape (j : Json) : String :=
  match j with
  | .null => ""
  | _ => collapseWS (pyStrip (pyReplace (pyReplace (pyStrOf j) "\r" " ") "\n" " "))

/-- `_ris_line` (app.py:149): empty string for an empty value, otherwise
`"TAG  - value"`. -/
def _ris_line (tag : String) (v : Json) : String :=
  let value := ris_escape v
  if value = "" then "" else tag ++ "  - " ++ value

/-- `_name_to_ris_author` (app.py:156). -/
def _name_to_ris_author (name : String) : String :=
  let name := pyStrip name
  if name = "" then ""
  else if name.toList.contains ',' then name
  else
    let parts := pySplitWS name
    if h : parts.length ≥ 2 then
      (parts.getLast (by intro he; simp [he] at h)) ++ ", " ++
        String.intercalate " " parts.dropLast
    else name

/-- `_split_pages` (app.py:171).  The replaced "dash" literal is the
character sequence actually stored in the source file. -/
def _split_pages (pages : String) : Option String × Option String :=
  if pages = "" then (none, none)
  else
    let p := pyReplace (pyReplace (pyStrip pages) "\u00E2\u20AC\u201C" "-") "--" "-"
    if p.toList.contains '-' then
      let a := pyStrip (String.mk (p.toList.takeWhile (fun c => c ≠ '-')))
      let b := pyStrip (String.mk ((p.toList.dropWhile (fun c => c ≠ '-')).drop 1))
      ((if a = "" then none else some a), (if b = "" then none else some b))
    else
      let q := pyStrip p
      ((if q = "" then none else some q), none)

/-- `arxiv_doi` (app.py:182): DataCite DOI, version dropped at the first
`v`. -/
def arxiv_doi (arxiv_id : String) : String :=
  if arxiv_id = "" then ""
  else "10.48550/arXiv." ++ String.mk (arxiv_id.toList.takeWhile (fun c => c ≠ 'v'))

/-! ## arXiv records and converters

`arxiv.Result` objects are typed library values; the fields used by the
source are modelled directly.  `shortId` stands for `get_short_id()`. -/

structure PubDate where
  y : Nat
  m : Nat
  d : Nat

structure ArxivResult where
  title : String
  authorNames : List String
  published : Option PubDate
  primaryCategory : Option String
  entryId : String
  shortId : String

/-- `r.published.strftime("%Y/%m/%d")`. -/
def strftimeYMD (d : PubDate) : String :=
  padNat 4 d.y ++ "/" ++ padNat 2 d.m ++ "/" ++ padNat 2 d.d

/-- The `lines` list of `format_arxiv_to_ris` (app.py:190), before the
final empty-line filter. -/
def risLinesArxiv (r : ArxivResult) : List String :=
  let arxiv_id := r.shortId
  let year : Option Nat := r.published.map (·.y)
  let da := match r.published with
    | some d => strftimeYMD d
    | none => ""
  let primary := r.primaryCategory.getD ""
  let authors := r.authorNames.map _name_to_ris_author
  [_ris_line "TY" (.str "RPRT"), _ris_line "TI" (.str r.title)]
  ++ (authors.filterMap (fun a =>
        let ln := _ris_line "AU" (.str a)
        if ln = "" then none else some ln))
  ++ (match year with
      | some y => if y ≠ 0 then [_ris_line "PY" (.str (toString y))] else []
      | none => [])
  ++ (if da ≠ "" then [_ris_line "DA" (.str da)] else [])
  ++ [_ris_line "JO" (.str "arXiv"), _ris_line "T2" (.str ("arXiv:" ++ arxiv_id))]
  ++ (if primary ≠ "" then [_ris_line "KW" (.str primary)] else [])
  ++ [_ris_line "DO" (.str (arxiv_doi arxiv_id)), _ris_line "UR" (.str r.entryId),
      "ER  -"]

/-- `format_arxiv_to_ris` (app.py:190). -/
def format_arxiv_to_ris (r : ArxivResult) : String :=
  joinLines ((risLinesArxiv r).filter (fun ln => ln ≠ ""))

/-- `format_arxiv_to_bibtex` (app.py:340).  The f-string doubles every
brace around a field value (`{{{{...}}}}` renders as `{{...}}`), and an
absent year prints as `None`; both are reproduced faithfully.
`make_key` can raise, which propagates. -/
def format_arxiv_to_bibtex (r : ArxivResult) : Except String String :=
  let authors := r.authorNames
  let authors_str := String.intercalate " and " authors
  let year : Option Nat := r.published.map (·.y)
  match make_key authors (year.map Int.ofNat) (.str r.title) with
  | .error e => .error e
  | .ok key =>
    let arxiv_id := r.shortId
    let primary := r.primaryCategory.getD ""
    let title := latex_escape (pyStrip r.title)
    let url := r.entryId
    .ok ("@misc\x7b" ++ key ++ ",\n"
      ++ "  title=\x7b\x7b" ++ title ++ "\x7d\x7d,\n"
      ++ "  author=\x7b\x7b" ++ latex_escape authors_str ++ "\x7d\x7d,\n"
      ++ "  year=\x7b\x7b" ++ pyStrOptNat year ++ "\x7d\x7d,\n"
      ++ "  eprint=\x7b\x7b" ++ arxiv_id ++ "\x7d\x7d,\n"
      ++ "  archivePrefix=\x7b\x7barXiv\x7d\x7d,\n"
      ++ "  primaryClass=\x7b\x7b" ++ primary ++ "\x7d\x7d,\n"
      ++ "  url=\x7b\x7b" ++ url ++ "\x7d\x7d,\n"
      ++ "\x7d")

/-! ## Crossref converters -/

/-- `CROSSREF_TYPE_TO_RIS` (app.py:219). -/
def CROSSREF_TYPE_TO_RIS : List (String × String) :=
  [("journal-article", "JOUR"), ("journal-issue", "JOUR"),
   ("proceedings-article", "CONF"), ("conference-paper", "CONF"),
   ("book-chapter", "CHAP"), ("book-section", "CHAP"),
   ("book", "BOOK"), ("monograph", "BOOK"),
   ("report", "RPRT"), ("posted-content", "RPRT"),
   ("dissertation", "THES"), ("thesis", "THES")]

/-- `(m.get(k) or "").strip()`, the recurring field-extraction idiom. -/
def getStrField (m : Json) (k : String) : Except String String :=
  match pyGet m k with
  | .error e => .error e
  | .ok v =>
    match getStr v with
    | .error e => .error e
    | .ok s => .ok (pyStrip s)

/-- `x = m.get(k) or []; x[0] if x else ""`, the title/container idiom
(the result is a dynamic value, not necessarily a string). -/
def firstOrEmpty (m : Json) (k : String) : Except String Json :=
  match pyGet m k with
  | .error e => .error e
  | .ok v =>
    let lst := pyOr v (.arr [])
    if truthy lst then pyIndex0 lst else .ok (.str "")

/-- The author loop shared by `ris_from_crossref` (app.py:266) and
`bibtex_from_crossref` (app.py:452): `"family, given"` when both parts are
present, otherwise a non-empty `name`. -/
def authorsFrom : List Json → Except String (List String)
  | [] => .ok []
  | a :: rest =>
    match pyGet a "family" with
    | .error e => .error e
    | .ok fv =>
      match getStr fv with
      | .error e => .error e
      | .ok f =>
        match pyGet a "given" with
        | .error e => .error e
        | .ok gv =>
          match getStr gv with
          | .error e => .error e
          | .ok g =>
            let family := pyStrip f
            let given := pyStrip g
            if family ≠ "" && given ≠ "" then
              (authorsFrom rest).map (fun l => (family ++ ", " ++ given) :: l)
            else
              match pyGet a "name" with
              | .error e => .error e
              | .ok nv =>
                match getStr nv with
                | .error e => .error e
                | .ok n =>
                  let name := pyStrip n
                  if name ≠ "" then (authorsFrom rest).map (fun l => name :: l)
                  else authorsFrom rest

/-- `(m.get("author") or [])` iterated through the author loop. -/
def authorsOf (m : Json) : Except String (List String) :=
  match pyGet m "author" with
  | .error e => .error e
  | .ok av =>
    match pyIter (pyOr av (.arr [])) with
    | .error e => .error e
    | .ok lst => authorsFrom lst

/-- `dp = (m.get(key) or {}).get("date-parts") or []`. -/
def dateParts (m : Json) (key : String) : Except String Json :=
  match pyGet m key with
  | .error e => .error e
  | .ok kv =>
    match pyGet (pyOr kv (.obj [])) "date-parts" with
    | .error e => .error e
    | .ok dpv => .ok (pyOr dpv (.arr []))

/-- `int(parts[i]) if len(parts) >= i+1 and parts[i] else None`. -/
def datePartAt (parts : Json) (l i : Nat) : Except String (Option Int) :=
  if l ≥ i + 1 then
    match pyIndexAt parts i with
    | .error e => .error e
    | .ok e0 =>
      if truthy e0 then (pyToInt e0).map some else .ok none
  else .ok none

/-- `_crossref_best_date` (app.py:235): first of
`issued`/`created`/`published-print`/`published-online` with a non-empty
leading date-parts entry. -/
def _crossref_best_date_go (m : Json) :
    List String → Except String (Option Int × Option Int × Option Int)
  | [] => .ok (none, none, none)
  | key :: keys =>
    match dateParts m key with
    | .error e => .error e
    | .ok dp =>
      if truthy dp then
        match pyIndex0 dp with
        | .error e => .error e
        | .ok p0 =>
          if truthy p0 then
            match pyLen p0 with
            | .error e => .error e
            | .ok l =>
              match datePartAt p0 l 0 with
              | .error e => .error e
              | .ok y =>
                match datePartAt p0 l 1 with
                | .error e => .error e
                | .ok mo =>
                  match datePartAt p0 l 2 with
                  | .error e => .error e
                  | .ok d => .ok (y, mo, d)
          else _crossref_best_date_go m keys
      else _crossref_best_date_go m keys

/-- `_crossref_best_date` (app.py:235). -/
def _crossref_best_date (m : Json) :
    Except String (Option Int × Option Int × Option Int) :=
  _crossref_best_date_go m ["issued", "created", "published-print", "published-online"]

/-- The year loop of `bibtex_from_crossref` (app.py:462): same keys, but
additionally requires a truthy `dp[0][0]`. -/
def bibtexYearGo (m : Json) : List String → Except String (Option Int)
  | [] => .ok none
  | key :: keys =>
    match dateParts m key with
    | .error e => .error e
    | .ok dp =>
      if truthy dp then
        match pyIndex0 dp with
        | .error e => .error e
        | .ok p0 =>
          if truthy p0 then
            match pyIndex0 p0 with
            | .error e => .error e
            | .ok e00 =>
              if truthy e00 then (pyToInt e00).map some
              else bibtexYearGo m keys
          else bibtexYearGo m keys
      else bibtexYearGo m keys

/-- The year extraction of `bibtex_from_crossref` (app.py:462). -/
def bibtexYear (m : Json) : Except String (Option Int) :=
  bibtexYearGo m ["issued", "created", "published-print", "published-online"]

/-- `f"{y:04d}/{mo:02d}/{d:02d}"`-style `DA` value of `ris_from_crossref`
(app.py:277). -/
def crossrefDa (y mo d : Option Int) : String :=
  if optIntTruthy y && optIntTruthy mo && optIntTruthy d then
    pad4Int (y.getD 0) ++ "/" ++ pad2Int (mo.getD 0) ++ "/" ++ pad2Int (d.getD 0)
  else if optIntTruthy y && optIntTruthy mo then
    pad4Int (y.getD 0) ++ "/" ++ pad2Int (mo.getD 0)
  else if optIntTruthy y then
    pad4Int (y.getD 0)
  else ""

/-- The `lines` list of `ris_from_crossref` (app.py:247), before the final
empty-line filter; every step raises exactly where the Python does. -/
def risLinesCrossref (m : Json) : Except String (List String) :=
  match firstOrEmpty m "title" with
  | .error e => .error e
  | .ok title =>
    match firstOrEmpty m "container-title" with
    | .error e => .error e
    | .ok container =>
      match getStrField m "type" with
      | .error e => .error e
      | .ok typ =>
        let ris_ty := (CROSSREF_TYPE_TO_RIS.lookup typ).getD "GEN"
        match getStrField m "DOI" with
        | .error e => .error e
        | .ok doi =>
          match getStrField m "URL" with
          | .error e => .error e
          | .ok url =>
            match getStrField m "volume" with
            | .error e => .error e
            | .ok volume =>
              match getStrField m "issue" with
              | .error e => .error e
              | .ok number =>
                match getStrField m "page" with
                | .error e => .error e
                | .ok pages =>
                  match getStrField m "publisher" with
                  | .error e => .error e
                  | .ok publisher =>
                    let sp := (_split_pages pages).1
                    let ep := (_split_pages pages).2
                    match authorsOf m with
                    | .error e => .error e
                    | .ok aus =>
                      match _crossref_best_date m with
                      | .error e => .error e
                      | .ok (y, mo, d) =>
                        let da := crossrefDa y mo d
                        .ok (
                          [_ris_line "TY" (.str ris_ty), _ris_line "TI" title]
                          ++ (aus.filterMap (fun a =>
                                let ln := _ris_line "AU" (.str a)
                                if ln = "" then none else some ln))
                          ++ (if optIntTruthy y then
                                [_ris_line "PY" (.str (toString (y.getD 0)))]
                              else [])
                          ++ (if da ≠ "" then [_ris_line "DA" (.str da)] else [])
                          ++ (if ris_ty = "JOUR" then
                                (if truthy container then
                                  [_ris_line "JO" container, _ris_line "JF" container]
                                 else [])
                                ++ (if volume ≠ "" then [_ris_line "VL" (.str volume)] else [])
                                ++ (if number ≠ "" then [_ris_line "IS" (.str number)] else [])
                              else
                                (if truthy container then [_ris_line "T2" container] else [])
                                ++ (if publisher ≠ "" then [_ris_line "PB" (.str publisher)] else []))
                          ++ (if optStrTruthy sp then [_ris_line "SP" (.str (sp.getD ""))] else [])
                          ++ (if optStrTruthy ep then [_ris_line "EP" (.str (ep.getD ""))] else [])
                          ++ (if doi ≠ "" then [_ris_line "DO" (.str doi)] else [])
                          ++ (if url ≠ "" then [_ris_line "UR" (.str url)] else [])
                          ++ ["ER  -"])

/-- `ris_from_crossref` (app.py:247). -/
def ris_from_crossref (m : Json) : Except String String :=
  (risLinesCrossref m).map (fun lines => joinLines (lines.filter (fun ln => ln ≠ "")))

/-- The rendering loop of `bibtex_from_crossref` (app.py:515): skip falsy
values (`if not v: continue`), LaTeX-escape the rest (raising on a truthy
non-string, as `latex_escape` would). -/
def bibtexFieldLines : List (String × Json) → Except String (List String)
  | [] => .ok []
  | (k, v) :: rest =>
    if truthy v then
      match latexEscapeJ v with
      | .error e => .error e
      | .ok w =>
        (bibtexFieldLines rest).map
          (fun ls => ("  " ++ k ++ "=\x7b\x7b" ++ w ++ "\x7d\x7d,") :: ls)
    else bibtexFieldLines rest

/-- `lines[-1] = lines[-1].rstrip(",")`. -/
def modifyLast (f : String → String) : List String → List String
  | [] => []
  | [x] => [f x]
  | x :: xs => x :: modifyLast f xs

/-- `bibtex_from_crossref` (app.py:444). -/
def bibtex_from_crossref (m : Json) : Except String String :=
  match firstOrEmpty m "title" with
  | .error e => .error e
  | .ok title =>
    match firstOrEmpty m "container-title" with
    | .error e => .error e
    | .ok container =>
      match authorsOf m with
      | .error e => .error e
      | .ok authors =>
        match bibtexYear m with
        | .error e => .error e
        | .ok year =>
          match getStrField m "DOI" with
          | .error e => .error e
          | .ok doi =>
            match getStrField m "URL" with
            | .error e => .error e
            | .ok url =>
              match getStrField m "volume" with
              | .error e => .error e
              | .ok volume =>
                match getStrField m "issue" with
                | .error e => .error e
                | .ok number =>
                  match getStrField m "page" with
                  | .error e => .error e
                  | .ok pages =>
                    match getStrField m "publisher" with
                    | .error e => .error e
                    | .ok publisher =>
                      match getStrField m "type" with
                      | .error e => .error e
                      | .ok typ =>
                        let entry_type :=
                          if typ = "journal-article" || typ = "journal-issue" then
                            "article"
                          else if typ = "proceedings-article" || typ = "conference-paper" then
                            "inproceedings"
                          else "misc"
                        let baseFields : List (String × Json) :=
                          if typ = "journal-article" || typ = "journal-issue" then
                            [("journal", container)]
                            ++ (if volume ≠ "" then [("volume", .str volume)] else [])
                            ++ (if number ≠ "" then [("number", .str number)] else [])
                            ++ (if pages ≠ "" then [("pages", .str pages)] else [])
                          else if typ = "proceedings-article" || typ = "conference-paper" then
                            [("booktitle", container)]
                            ++ (if pages ≠ "" then [("pages", .str pages)] else [])
                            ++ (if publisher ≠ "" then [("publisher", .str publisher)] else [])
                          else
                            (if truthy container then [("howpublished", container)] else [])
                        let fields : List (String × Json) :=
                          baseFields
                          ++ [("title", title)]
                          ++ (if authors ≠ [] then
                                [("author", .str (String.intercalate " and " authors))]
                              else [])
                          ++ (if optIntTruthy year then
                                [("year", .str (toString (year.getD 0)))]
                              else [])
                          ++ (if doi ≠ "" then [("doi", .str doi)] else [])
                          ++ (if url ≠ "" then [("url", .str url)] else [])
                        match make_key
                            (authors.map (fun a =>
                              String.mk (a.toList.takeWhile (fun c => c ≠ ','))))
                            year title with
                        | .error e => .error e
                        | .ok key =>
                          match bibtexFieldLines fields with
                          | .error e => .error e
                          | .ok fl =>
                            let lines := ("@" ++ entry_type ++ "\x7b" ++ key ++ ",") :: fl
                            let lines :=
                              if lines.length > 1 then modifyLast pyRStripCommas lines
                              else lines
                            .ok (joinLines (lines ++ ["\x7d"]))

/-! ## Regex machinery for the extractors

Direct implementations of the concrete patterns of app.py, with the
leftmost-match and greedy/backtracking behaviour of Python `re`. -/

/-- Wordness of the character following a match (end of input counts as
non-word), for a trailing `\b`. -/
def nonWordNext : List Char → Bool
  | [] => true
  | c :: _ => !isWordChar c

/-- Case-insensitive literal prefix test (pattern given in lowercase). -/
def lowerPref (pat : String) (s : List Char) : Bool :=
  isPrefOf pat.toList ((s.take pat.toList.length).map Char.toLower)

/-- Backtrack a greedy character-class run (given reversed) until its last
character forms a word boundary with what follows. -/
def shrinkBoundaryRev : List Char → Bool → Option (List Char)
  | [], _ => none
  | l :: ls, nw =>
    if isWordChar l != nw then some (l :: ls)
    else shrinkBoundaryRev ls (isWordChar l)

/-- The DOI character class `[-._;()/:A-Z0-9]` (case-insensitive). -/
def isDoiClass (c : Char) : Bool :=
  c.isAlphanum || "-._;()/:".toList.contains c

/-- Match `DOI_RE` = `\b10\.\d{4,9}/[-._;()/:A-Z0-9]+\b` anchored at the
head of `s` (with `prev` the preceding character for the leading `\b`),
returning the matched characters. -/
def doiMatchAt (prev : Option Char) (s : List Char) : Option (List Char) :=
  if prev.elim false isWordChar then none
  else
    match s with
    | '1' :: '0' :: '.' :: rest =>
      let r := (rest.takeWhile Char.isDigit).length
      if 4 ≤ r && r ≤ 9 then
        match rest.drop r with
        | '/' :: rest2 =>
          let run := rest2.takeWhile isDoiClass
          if run.isEmpty then none
          else
            let nw := match rest2.drop run.length with
              | [] => false
              | c :: _ => isWordChar c
            match shrinkBoundaryRev run.reverse nw with
            | none => none
            | some kept =>
              some ('1' :: '0' :: '.' :: (rest.take r ++ '/' :: kept.reverse))
        | _ => none
      else none
    | _ => none

/-- `re.search` scan for `DOI_RE`. -/
def doiSearch (prev : Option Char) : List Char → Option (List Char)
  | [] => none
  | c :: rest =>
    match doiMatchAt prev (c :: rest) with
    | some m => some m
    | none => doiSearch (some c) rest

/-- `extract_doi` (app.py:49): first `DOI_RE` match with trailing periods
stripped. -/
def extract_doi (text : String) : Option String :=
  match doiSearch none text.toList with
  | none => none
  | some m => some (pyRStripDots (String.mk m))

/-- `ARXIV_NEW_RE.fullmatch`: `\d{4}\.\d{4,5}(?:v\d+)?` (case-insensitive). -/
def arxivNewFull (cs : List Char) : Bool :=
  let d1 := cs.takeWhile Char.isDigit
  if d1.length = 4 then
    match cs.drop 4 with
    | '.' :: r2 =>
      let k := (r2.takeWhile Char.isDigit).length
      if 4 ≤ k && k ≤ 5 then
        match r2.drop k with
        | [] => true
        | c :: ds => (c == 'v' || c == 'V') && !ds.isEmpty && ds.all Char.isDigit
      else false
    | _ => false
  else false

/-- `ARXIV_OLD_RE.fullmatch`: `[a-z\-]+/\d{7}(?:v\d+)?` (case-insensitive). -/
def arxivOldFull (cs : List Char) : Bool :=
  let letters := cs.takeWhile (fun c => c.isAlpha || c == '-')
  if letters.isEmpty then false
  else
    match cs.drop letters.length with
    | '/' :: r2 =>
      let d7 := r2.take 7
      if d7.length = 7 && d7.all Char.isDigit then
        match r2.drop 7 with
        | [] => true
        | c :: ds => (c == 'v' || c == 'V') && !ds.isEmpty && ds.all Char.isDigit
      else false
    | _ => false

/-- The optional `(?:v\d+)?\b` tail of the arXiv search patterns, tried
with the version group first (greedy), then without; returns the matched
tail characters. -/
def arxivVersionTail (rem : List Char) : Option (List Char) :=
  (match rem with
   | c :: vr =>
     if c == 'v' || c == 'V' then
       let rv := (vr.takeWhile Char.isDigit).length
       if rv ≥ 1 && nonWordNext (vr.drop rv) then some (c :: vr.take rv)
       else none
     else none
   | [] => none)
  <|> (if nonWordNext rem then some [] else none)

/-- Match `\b\d{4}\.\d{4,5}(?:v\d+)?\b` at the head of `s`. -/
def arxivNewMatchAt (prev : Option Char) (s : List Char) : Option (List Char) :=
  if prev.elim false isWordChar then none
  else
    let d1 := s.takeWhile Char.isDigit
    if d1.length = 4 then
      match s.drop 4 with
      | '.' :: r2 =>
        let run := (r2.takeWhile Char.isDigit).length
        let tryK : Nat → Option (List Char) := fun k =>
          if 4 ≤ k && k ≤ run then
            match arxivVersionTail (r2.drop k) with
            | some tail => some (d1 ++ '.' :: (r2.take k ++ tail))
            | none => none
          else none
        (tryK (min run 5)) <|> (tryK 4)
      | _ => none
    else none

/-- `re.search` scan for `ARXIV_NEW_RE`. -/
def arxivNewSearch (prev : Option Char) : List Char → Option (List Char)
  | [] => none
  | c :: rest =>
    match arxivNewMatchAt prev (c :: rest) with
    | some m => some m
    | none => arxivNewSearch (some c) rest

/-- Match `\b[a-z\-]+/\d{7}(?:v\d+)?\b` at the head of `s`. -/
def arxivOldMatchAt (prev : Option Char) (s : List Char) : Option (List Char) :=
  match s with
  | [] => none
  | c :: _ =>
    if !(c.isAlpha || c == '-') then none
    else if (prev.elim false isWordChar) == isWordChar c then none
    else
      let run := s.takeWhile (fun x => x.isAlpha || x == '-')
      match s.drop run.length with
      | '/' :: r2 =>
        let d7 := r2.take 7
        if d7.length = 7 && d7.all Char.isDigit then
          match arxivVersionTail (r2.drop 7) with
          | some tail => some (run ++ '/' :: (d7 ++ tail))
          | none => none
        else none
      | _ => none

/-- `re.search` scan for `ARXIV_OLD_RE`. -/
def arxivOldSearch (prev : Option Char) : List Char → Option (List Char)
  | [] => none
  | c :: rest =>
    match arxivOldMatchAt prev (c :: rest) with
    | some m => some m
    | none => arxivOldSearch (some c) rest

/-- `re.search(r"arxiv\s*:\s*([^\s]+)", text, re.IGNORECASE)`: the group. -/
def arxPrefixScan : List Char → Option (List Char)
  | [] => none
  | c :: rest =>
    (if lowerPref "arxiv" (c :: rest) then
      match ((c :: rest).drop 5).dropWhile isPySpace with
      | ':' :: t2 =>
        let grp := (t2.dropWhile isPySpace).takeWhile (fun x => !isPySpace x)
        if grp.isEmpty then none else some grp
      | _ => none
     else none)
    <|> arxPrefixScan rest

/-- `re.search(r"arxiv\.org/(?:abs|pdf)/([^\s?#]+)", text, re.IGNORECASE)`. -/
def arxUrlScan : List Char → Option (List Char)
  | [] => none
  | c :: rest =>
    (if lowerPref "arxiv.org/" (c :: rest) then
      let t := (c :: rest).drop 10
      if lowerPref "abs/" t || lowerPref "pdf/" t then
        let grp := (t.drop 4).takeWhile
          (fun x => !(isPySpace x || x == '?' || x == '#'))
        if grp.isEmpty then none else some grp
      else none
     else none)
    <|> arxUrlScan rest

/-- `extract_arxiv_id` (app.py:56): explicit `arXiv:` prefix, then URL
forms, then bare new-style, then bare old-style identifiers. -/
def extract_arxiv_id (text : String) : Option String :=
  if text = "" then none
  else
    let cs := text.toList
    let fromPre : Option String :=
      match arxPrefixScan cs with
      | some grp =>
        let cand := pyReplace (pyReplace (pyReplace (String.mk grp) "abs/" "") "pdf/" "") ".pdf" ""
        let cand := pyRStripDots (pyStrip cand)
        if arxivNewFull cand.toList || arxivOldFull cand.toList then some cand
        else none
      | none => none
    match fromPre with
    | some c => some c
    | none =>
      let fromUrl : Option String :=
        match arxUrlScan cs with
        | some grp =>
          let cand := pyReplace (String.mk grp) ".pdf" ""
          let cand := pyRStripDots (pyStrip cand)
          if arxivNewFull cand.toList || arxivOldFull cand.toList then some cand
          else none
        | none => none
      match fromUrl with
      | some c => some c
      | none =>
        match arxivNewSearch none cs with
        | some m => some (String.mk m)
        | none =>
          match arxivOldSearch none cs with
          | some m => some (String.mk m)
          | none => none

/-! ## `guess_title` -/

/-- Parse the leading enumeration marker `^\s*(\[\d+\]|\d+\.)`, returning
the remainder after the marker on success. -/
def parseMarker (cs : List Char) : Option (List Char) :=
  let r := cs.dropWhile isPySpace
  match r with
  | '[' :: r2 =>
    let ds := r2.takeWhile Char.isDigit
    if ds.isEmpty then none
    else
      match r2.drop ds.length with
      | ']' :: r3 => some r3
      | _ => none
  | _ =>
    let ds := r.takeWhile Char.isDigit
    if ds.isEmpty then none
    else
      match r.drop ds.length with
      | '.' :: r3 => some r3
      | _ => none

/-- `re.sub(r"^\s*(\[\d+\]|\d+\.)\s*", "", t)` (app.py:95). -/
def markerStripG (t : String) : String :=
  match parseMarker t.toList with
  | some r3 => String.mk (r3.dropWhile isPySpace)
  | none => t

/-- `re.match(r"^\s*(\[\d+\]|\d+\.)\s+", line)` (app.py:749) as a test. -/
def markerTest (line : String) : Bool :=
  match parseMarker line.toList with
  | some r3 =>
    match r3 with
    | c :: _ => isPySpace c
    | [] => false
  | none => false

/-- `re.sub(r"\barxiv\b.*$", "", t, flags=re.IGNORECASE)` (app.py:97):
`.` does not cross a newline and `$` only matches at the end of the string
or before a final trailing newline. -/
def arxivCutGo (prev : Option Char) (acc : List Char) : List Char → List Char
  | [] => acc.reverse
  | c :: rest =>
    let here := c :: rest
    let matchHere :=
      (prev.elim true (fun p => !isWordChar p)) &&
      lowerPref "arxiv" here && nonWordNext (here.drop 5)
    if matchHere then
      let after := here.drop 5
      let rem := after.dropWhile (fun x => x ≠ '\n')
      match rem with
      | [] => acc.reverse
      | ['\n'] => (('\n' :: acc)).reverse
      | _ => arxivCutGo (some c) (c :: acc) rest
    else arxivCutGo (some c) (c :: acc) rest

/-- The `arxiv`-tail removal of `guess_title`. -/
def arxivCut (t : String) : String := String.mk (arxivCutGo none [] t.toList)

/-- `re.sub(r"https?://\S+", "", t)` (app.py:98): remove every URL.  The
fuel argument (initially the input length) makes the recursion structural;
every step consumes at least one character, so the fuel never runs out. -/
def urlStripGo : Nat → List Char → List Char
  | 0, _ => []
  | _ + 1, [] => []
  | fuel + 1, c :: rest =>
    let s := c :: rest
    let matched : Option Nat :=
      if isPrefOf "http".toList s then
        let (afterS, consumed) :=
          match s.drop 4 with
          | 's' :: r => (r, 5)
          | r => (r, 4)
        if isPrefOf "://".toList afterS then
          let body := (afterS.drop 3).takeWhile (fun x => !isPySpace x)
          if body.isEmpty then none else some (consumed + 3 + body.length)
        else none
      else none
    match matched with
    | some n => urlStripGo fuel (rest.drop (n - 1))
    | none => c :: urlStripGo fuel rest

/-- The URL removal of `guess_title`. -/
def urlStrip (t : String) : String :=
  String.mk (urlStripGo t.toList.length t.toList)

/-- The quote-character class of app.py:101 — the characters literally
stored in the source file: `"`, `â`, `€`, `œ`, `'`, `˜`, `™`. -/
def isQuoteChar (c : Char) : Bool :=
  c == '"' || c == 'â' || c == '€' || c == 'œ' ||
  c == '\'' || c == '˜' || c == '™'

/-- Non-greedy search for the closing quote: the first quote character
after at least one inner character; `.` stops at a newline. -/
def quotedClose (acc : List Char) : List Char → Option (List Char)
  | [] => none
  | x :: xs =>
    if x = '\n' then none
    else if isQuoteChar x && !acc.isEmpty then some acc.reverse
    else quotedClose (x :: acc) xs

/-- Leftmost match of `[Q](.+?)[Q]` (the capture group). -/
def quotedScan : List Char → Option (List Char)
  | [] => none
  | c :: rest =>
    (if isQuoteChar c then quotedClose [] rest else none)
    <|> quotedScan rest

/-- The cleaning prefix of `guess_title` (app.py:93): strip, drop a
leading enumeration marker, cut from the word `arxiv` on, drop URLs. -/
def cleanedInput (text : String) : String :=
  let t := pyStrip text
  let t := markerStripG t
  let t := pyStrip (arxivCut t)
  pyStrip (urlStrip t)

/-- The body of `guess_title` (app.py:96-121) after the cleaning prefix:
quoted span / longest sentence segment / longest comma chunk / verbatim. -/
def guessBodyL (t : String) : String :=
  let quoted : Option String :=
    match quotedScan t.toList with
    | some g =>
      if g.length ≥ 6 then some (pyRStripDots (pyStrip (String.mk g))) else none
    | none => none
  match quoted with
  | some r => r
  | none =>
    let parts := ((splitOnChars ['.', ';'] t.toList).map pyStrip).filter (· ≠ "")
    let fromParts : Option String :=
      match parts with
      | [] => none
      | p :: ps =>
        let cand := maxByLenFirst p ps
        if cand.length > 15 then some (pyRStripDots (pyStrip cand)) else none
    match fromParts with
    | some r => r
    | none =>
      if t.toList.contains ',' then
        let chunks := ((splitOnChars [','] t.toList).map pyStrip).filter (· ≠ "")
        match chunks with
        | [] => pyRStripDots (pyStrip t)
        | c :: cs => pyRStripDots (pyStrip (maxByLenFirst c cs))
      else pyRStripDots (pyStrip t)

/-- `guess_title` (app.py:88): strip numbering, arXiv tails and URLs, then
quoted span / longest sentence segment / longest comma chunk / verbatim. -/
def guess_title (text : String) : String :=
  if text = "" then "" else guessBodyL (cleanedInput text)

/-! ## Result record, environment, call trace -/

/-- `BibResult` (app.py:324).  `matched_title` is a dynamic value in the
Crossref paths. -/
structure BibResult where
  raw : String
  ok : Bool
  source : String
  matched_title : Option Json
  bibtex : Option String
  ris : Option String
  message : Option String

/-- One outbound adapter/network invocation. -/
inductive Call where
  | crWork : String → Call
  | arxId : String → Call
  | arxSearch : String → Nat → Call
  | ssSearch : String → Nat → Call
  | oaSearch : String → Nat → Call
  | crSearch : String → Nat → Call
deriving DecidableEq

/-- The external world: the four source adapters (each already absorbing
network failure, per app.py:364-597) and the fuzzy scorer
`fuzz.token_set_ratio` (modelled as integer-valued). -/
structure Env where
  crossrefWork : String → Option Json
  arxivById : String → Option ArxivResult
  arxivSearch : String → Nat → List ArxivResult
  ssSearch : String → Nat → Json
  oaSearch : String → Nat → Json
  crSearch : String → Nat → Json
  fuzz : String → String → Int

/-- `arxiv_search_title` (app.py:375): strip quotes, field-restricted
`ti:"..."` query. -/
def arxiv_search_title (env : Env) (title : String) (maxResults : Nat) :
    List ArxivResult × List Call :=
  let q := pyStripQuoteChar (pyStrip title)
  let query := "ti:\"" ++ q ++ "\""
  (env.arxivSearch query maxResults, [Call.arxSearch query maxResults])

/-! ## Fuzzy matchers -/

/-- The scoring loop of `best_arxiv_match` (app.py:399). -/
def arxivLoop (fz : String → String → Int) (nt : String) :
    List ArxivResult → Option ArxivResult → Int → Option ArxivResult × Int
  | [], best, bs => (best, bs)
  | c :: rest, best, bs =>
    let score := fz nt (_norm c.title)
    if score > bs then arxivLoop fz nt rest (some c) score
    else arxivLoop fz nt rest best bs

/-- `best_arxiv_match` (app.py:388): field-restricted search (12 results),
broader fallback search when empty, fuzzy scoring, threshold gate. -/
def best_arxiv_match (env : Env) (title : String) (threshold : Int) :
    (Option ArxivResult × Int) × List Call :=
  let s1 := arxiv_search_title env title 12
  let s2 :=
    if s1.1.isEmpty then (env.arxivSearch title 12, s1.2 ++ [Call.arxSearch title 12])
    else s1
  let r := arxivLoop env.fuzz (_norm title) s2.1 none (-1)
  (if r.1.isSome ∧ r.2 ≥ threshold then r else (none, r.2), s2.2)

/-- The scoring loop of `best_title_match_from_candidates` (app.py:605). -/
def btmLoop (fz : String → String → Int) (nt : String) :
    List (String × Json) → Option Json → Int → Option Json × Int
  | [], best, bs => (best, bs)
  | (ct, payload) :: rest, best, bs =>
    let score := fz nt (_norm ct)
    if score > bs then btmLoop fz nt rest (some payload) score
    else btmLoop fz nt rest best bs

/-- `best_title_match_from_candidates` (app.py:600).  The final gate is
`if best and best_score >= threshold`, so the winning payload must also be
Python-truthy. -/
def best_title_match_from_candidates (fz : String → String → Int)
    (title : String) (candidates : List (String × Json)) (threshold : Int) :
    Option Json × Int :=
  let r := btmLoop fz (_norm title) candidates none (-1)
  match r.1 with
  | some b => if truthy b ∧ r.2 ≥ threshold then (some b, r.2) else (none, r.2)
  | none => (none, r.2)

/-- The scoring loop of `best_crossref_match` (app.py:530): extracts each
candidate title dynamically and can therefore raise. -/
def crLoop (fz : String → String → Int) (nt : String) :
    List Json → Option Json → Int → Except String (Option Json × Int)
  | [], best, bs => .ok (best, bs)
  | it :: rest, best, bs =>
    match pyGet it "title" with
    | .error e => .error e
    | .ok tl =>
      match (if truthy tl then pyIndex0 (pyOr tl (.arr [.str ""])) else .ok (.str "")) with
      | .error e => .error e
      | .ok t =>
        if truthy t then
          match _normJ t with
          | .error e => .error e
          | .ok ntc =>
            let score := fz nt ntc
            if score > bs then crLoop fz nt rest (some it) score
            else crLoop fz nt rest best bs
        else crLoop fz nt rest best bs

/-- `best_crossref_match` (app.py:526). -/
def best_crossref_match (env : Env) (title : String) (threshold : Int) :
    Except String (Option Json × Int) × List Call :=
  let items := env.crSearch title 10
  let r : Except String (Option Json × Int) :=
    match pyIter items with
    | .error e => .error e
    | .ok lst =>
      match crLoop env.fuzz (_norm title) lst none (-1) with
      | .error e => .error e
      | .ok r =>
        .ok (match r.1 with
          | some b => if truthy b ∧ r.2 ≥ threshold then (some b, r.2) else (none, r.2)
          | none => (none, r.2))
  (r, [Call.crSearch title 10])

/-! ## Resolution orchestrator -/

/-- The empty-input failure message of app.py:622 (the characters
literally stored in the source file). -/
def emptyInputMsg : String := "\u00E7\u00A9\u00BA\u00E8\u00BE\u201C\u00E5\u2026\u00A5"

/-- The no-reliable-match advisory message of app.py:734. -/
def advisoryMsg : String :=
  "\u00E6\u00B2\u00A1\u00E6\u0153\u2030\u00E5\u00AF\u00E9\u00A0\u00E5\u0152\u00B9\u00E9\u2026\u00E3\u20AC\u201A\u00E5\u00BB\u00BA\u00E8\u00AE\u00AE\u00EF\u00BC\u0161\u00E7\u203A\u00B4\u00E6\u00A5\u00E7\u00B2\u02DC\u00E8\u00B4\u00B4 DOI / arXiv ID\u00EF\u00BC\u0152\u00E6\u02C6\u2013\u00E7\u00BB\u2122\u00E6\u203A\u00B4\u00E5\u00AE\u0152\u00E6\u2022\u00B4\u00E6\u00A0\u2021\u00E9\u00A2\u02DC\u00E3\u20AC\u201A"

/-- The title-match label fragment of app.py:653/721. -/
def fuzzyLabel : String := "\u00E6\u00A0\u2021\u00E9\u00A2\u02DC\u00E5\u0152\u00B9\u00E9\u2026"

/-- The arrow fragment of the tier-4/5 source labels. -/
def arrowStr : String := "\u00E2\u2020\u2019"

/-- The failure result for empty/whitespace-only input (app.py:622). -/
def emptyFail (raw : String) : BibResult :=
  { raw := raw, ok := false, source := "", matched_title := none,
    bibtex := none, ris := none, message := some emptyInputMsg }

/-- The failure result when no tier succeeds (app.py:727). -/
def advisoryFail (raw : String) : BibResult :=
  { raw := raw, ok := false, source := "", matched_title := none,
    bibtex := none, ris := none, message := some advisoryMsg }

/-- A successful `BibResult` (all success sites populate both formats). -/
def successResult (raw source : String) (t : Option Json) (bib ris : String) :
    BibResult :=
  { raw := raw, ok := true, source := source, matched_title := t,
    bibtex := some bib, ris := some ris, message := none }

/-- The caught-exception failure result of tier 1 (app.py:638). -/
def tier1Fail (raw e : String) : BibResult :=
  { raw := raw, ok := false, source := "DOI/Crossref", matched_title := none,
    bibtex := none, ris := none, message := some e }

/-- `((m.get("title") or [""])[0] if m.get("title") else None)`. -/
def titleOfMsg (m : Json) : Except String (Option Json) :=
  match pyGet m "title" with
  | .error e => .error e
  | .ok tl =>
    if truthy tl then (pyIndex0 (pyOr tl (.arr [.str ""]))).map some
    else .ok none

/-- The tier-1 `try` block (app.py:632): BibTeX, then RIS, then the
matched title, in source order. -/
def tier1Convert (m : Json) : Except String (String × String × Option Json) :=
  match bibtex_from_crossref m with
  | .error e => .error e
  | .ok bib =>
    match ris_from_crossref m with
    | .error e => .error e
    | .ok ris =>
      match titleOfMsg m with
      | .error e => .error e
      | .ok t => .ok (bib, ris, t)

/-- Candidate pairs `[(it.get("title") or "", it) for it in items if
it.get("title")]` of tiers 4 and 5, kept dynamic. -/
def candPairs : List Json → Except String (List (Json × Json))
  | [] => .ok []
  | it :: rest =>
    match pyGet it "title" with
    | .error e => .error e
    | .ok tl =>
      if truthy tl then (candPairs rest).map (fun l => (tl, it) :: l)
      else candPairs rest

/-- Candidate titles forced to strings: a truthy non-string title raises
exactly where `_norm(cand_title)` would in the scoring loop. -/
def candStrs : List (Json × Json) → Except String (List (String × Json))
  | [] => .ok []
  | (tl, it) :: rest =>
    match tl with
    | .str s => (candStrs rest).map (fun l => (s, it) :: l)
    | _ => .error "AttributeError"

/-- Tier outcome: `none` means fall through to the next tier. -/
abbrev TierOut := Except String (Option BibResult × List Call)

/-- Early-return composition of a tier with the rest of the cascade. -/
def orElseT (x : TierOut) (k : Except String (BibResult × List Call)) :
    Except String (BibResult × List Call) :=
  match x with
  | .error e => .error e
  | .ok (some b, tr) => .ok (b, tr)
  | .ok (none, tr) =>
    match k with
    | .error e => .error e
    | .ok (b, tr2) => .ok (b, tr ++ tr2)

/-- Tier 1 (app.py:629): DOI → Crossref; converter exceptions are caught
and become a failure result carrying the exception text. -/
def tier1 (env : Env) (raw : String) (doi : Option String) : TierOut :=
  if optStrTruthy doi then
    let d := doi.getD ""
    match env.crossrefWork d with
    | none => .ok (none, [Call.crWork d])
    | some m =>
      if truthy m then
        match tier1Convert m with
        | .ok (bib, ris, t) =>
          .ok (some (successResult raw "DOI/Crossref" t bib ris), [Call.crWork d])
        | .error e =>
          .ok (some (tier1Fail raw e), [Call.crWork d])
      else .ok (none, [Call.crWork d])
  else .ok (none, [])

/-- Tier 2 (app.py:641): arXiv id → arXiv. -/
def tier2 (env : Env) (raw : String) (aid : Option String) : TierOut :=
  if optStrTruthy aid then
    let a := aid.getD ""
    match env.arxivById a with
    | none => .ok (none, [Call.arxId a])
    | some r =>
      match format_arxiv_to_bibtex r with
      | .error e => .error e
      | .ok bib =>
        .ok (some (successResult raw "arXiv" (some (.str r.title)) bib
          (format_arxiv_to_ris r)), [Call.arxId a])
  else .ok (none, [])

/-- Tier 3 (app.py:647): arXiv title match at the caller's threshold. -/
def tier3 (env : Env) (raw title : String) (threshold : Int) : TierOut :=
  if title ≠ "" then
    let b := best_arxiv_match env title threshold
    let score := b.1.2
    let tr := b.2
    match b.1.1 with
    | none => .ok (none, tr)
    | some r =>
      match format_arxiv_to_bibtex r with
      | .error e => .error e
      | .ok bib =>
        .ok (some (successResult raw
          ("arXiv(" ++ fuzzyLabel ++ ", score=" ++ toString score ++ ")")
          (some (.str r.title)) bib (format_arxiv_to_ris r)), tr)
  else .ok (none, [])

/-- The `if doi2:` suffix of tier 4 (app.py:679). -/
def tier4Doi (env : Env) (raw : String) (score : Int) (doi2 : Option String)
    (tr : List Call) : TierOut :=
  match doi2 with
  | some d =>
    match env.crossrefWork d with
    | some m =>
      if truthy m then
        match titleOfMsg m with
        | .error e => .error e
        | .ok t =>
          match bibtex_from_crossref m with
          | .error e => .error e
          | .ok bib =>
            match ris_from_crossref m with
            | .error e => .error e
            | .ok ris =>
              .ok (some (successResult raw
                ("SemanticScholar" ++ arrowStr ++
                  "DOI/Crossref(score=" ++ toString score ++ ")")
                t bib ris), tr ++ [Call.crWork d])
      else .ok (none, tr ++ [Call.crWork d])
    | none => .ok (none, tr ++ [Call.crWork d])
  | none => .ok (none, tr)

/-- Tier 4 (app.py:660): Semantic Scholar search; prefer the candidate's
external arXiv id over its DOI. -/
def tier4 (env : Env) (raw title : String) (threshold : Int) : TierOut :=
  if title ≠ "" then
    let ss := env.ssSearch title 10
    let tr0 := [Call.ssSearch title 10]
    match pyIter ss with
    | .error e => .error e
    | .ok items =>
      match candPairs items with
      | .error e => .error e
      | .ok pairs =>
        match candStrs pairs with
        | .error e => .error e
        | .ok cand =>
          match best_title_match_from_candidates env.fuzz title cand threshold with
          | (none, _) => .ok (none, tr0)
          | (some best, score) =>
            match pyGet best "externalIds" with
            | .error e => .error e
            | .ok extv =>
              let ext := pyOr extv (.obj [])
              match pyGet ext "DOI" with
              | .error e => .error e
              | .ok dv =>
                match getStr dv with
                | .error e => .error e
                | .ok ds =>
                  let doi2 : Option String :=
                    if pyStrip ds = "" then none else some (pyStrip ds)
                  match pyGet ext "ArXiv" with
                  | .error e => .error e
                  | .ok av =>
                    match getStr av with
                    | .error e => .error e
                    | .ok asx =>
                      let arx2 : Option String :=
                        if pyStrip asx = "" then none else some (pyStrip asx)
                      match arx2 with
                      | some a =>
                        match env.arxivById a with
                        | some rr =>
                          match format_arxiv_to_bibtex rr with
                          | .error e => .error e
                          | .ok bib =>
                            .ok (some (successResult raw
                ("SemanticScholar" ++ arrowStr ++
                  "arXiv(score=" ++ toString score ++ ")")
                (some (.str rr.title)) bib (format_arxiv_to_ris rr)),
                tr0 ++ [Call.arxId a])
                        | none => tier4Doi env raw score doi2 (tr0 ++ [Call.arxId a])
                      | none => tier4Doi env raw score doi2 tr0
  else .ok (none, [])

/-- Tier 5 (app.py:692): OpenAlex search; DOI extracted from the
candidate's DOI URL. -/
def tier5 (env : Env) (raw title : String) (threshold : Int) : TierOut :=
  if title ≠ "" then
    let oa := env.oaSearch title 10
    let tr0 := [Call.oaSearch title 10]
    match pyIter oa with
    | .error e => .error e
    | .ok items =>
      match candPairs items with
      | .error e => .error e
      | .ok pairs =>
        match candStrs pairs with
        | .error e => .error e
        | .ok cand =>
          match best_title_match_from_candidates env.fuzz title cand threshold with
          | (none, _) => .ok (none, tr0)
          | (some best, score) =>
            match pyGet best "doi" with
            | .error e => .error e
            | .ok dv =>
              match getStr dv with
              | .error e => .error e
              | .ok ds =>
                let doi_url := pyStrip ds
                let doi3 : Option String :=
                  if doi_url ≠ "" then
                    some (pyReplace (pyReplace doi_url "https://doi.org/" "")
                      "http://doi.org/" "")
                  else none
                match doi3 with
                | some d =>
                  if d = "" then .ok (none, tr0)
                  else
                    match env.crossrefWork d with
                    | some m =>
                      if truthy m then
                        match titleOfMsg m with
                        | .error e => .error e
                        | .ok t =>
                          match bibtex_from_crossref m with
                          | .error e => .error e
                          | .ok bib =>
                            match ris_from_crossref m with
                            | .error e => .error e
                            | .ok ris =>
                              .ok (some (successResult raw
                ("OpenAlex" ++ arrowStr ++
                  "DOI/Crossref(score=" ++ toString score ++ ")")
                t bib ris), tr0 ++ [Call.crWork d])
                      else .ok (none, tr0 ++ [Call.crWork d])
                    | none => .ok (none, tr0 ++ [Call.crWork d])
                | none => .ok (none, tr0)
  else .ok (none, [])

/-- Tier 6 (app.py:712): Crossref title search as last resort. -/
def tier6 (env : Env) (raw title : String) (threshold : Int) : TierOut :=
  if title ≠ "" then
    let b := best_crossref_match env title threshold
    let r := b.1
    let tr0 := b.2
    match r with
    | .error e => .error e
    | .ok (none, _) => .ok (none, tr0)
    | .ok (some best, score) =>
      match pyGet best "DOI" with
      | .error e => .error e
      | .ok dv =>
        match getStr dv with
        | .error e => .error e
        | .ok ds =>
          let doi4 := pyStrip ds
          if doi4 = "" then .ok (none, tr0)
          else
            match env.crossrefWork doi4 with
            | none => .ok (none, tr0 ++ [Call.crWork doi4])
            | some m =>
              if truthy m then
                match titleOfMsg m with
                | .error e => .error e
                | .ok t =>
                  match bibtex_from_crossref m with
                  | .error e => .error e
                  | .ok bib =>
                    match ris_from_crossref m with
                    | .error e => .error e
                    | .ok ris =>
                      .ok (some (successResult raw
                ("Crossref(" ++ fuzzyLabel ++ ", score=" ++
                  toString score ++ ")")
                t bib ris), tr0 ++ [Call.crWork doi4])
              else .ok (none, tr0 ++ [Call.crWork doi4])
  else .ok (none, [])

/-- `resolve_one` (app.py:619): empty-input check, signal extraction, then
the six-tier cascade with the advisory fallback. -/
def resolve_one (env : Env) (raw : String) (threshold : Int) :
    Except String (BibResult × List Call) :=
  let text := pyStrip raw
  if text = "" then .ok (emptyFail raw, [])
  else
    let doi := extract_doi text
    let arxiv_id := extract_arxiv_id text
    let title := guess_title text
    orElseT (tier1 env raw doi)
      (orElseT (tier2 env raw arxiv_id)
        (orElseT (tier3 env raw title threshold)
          (orElseT (tier4 env raw title (max 70 (threshold - 10)))
            (orElseT (tier5 env raw title (max 70 (threshold - 10)))
              (orElseT (tier6 env raw title (max 65 (threshold - 15)))
                (.ok (advisoryFail raw, [])))))))

/-! ## Entry splitter -/

/-- The line terminators of Python `str.splitlines`. -/
def isLineBreak (c : Char) : Bool :=
  c == '\n' || c == '\r' || c == '\x0b' || c == '\x0c' || c == '\x1c' ||
  c == '\x1d' || c == '\x1e' || c == '\u0085' || c == ' ' || c == ' '

/-- Python `str.splitlines` (`\r\n` counts as one terminator; no final
empty line for a trailing terminator). -/
def splitLinesGo : List Char → List Char → List String
  | [], acc => if acc.isEmpty then [] else [String.mk acc.reverse]
  | '\r' :: '\n' :: rest2, acc => String.mk acc.reverse :: splitLinesGo rest2 []
  | c :: rest, acc =>
    if isLineBreak c then String.mk acc.reverse :: splitLinesGo rest []
    else splitLinesGo rest (c :: acc)

/-- Python `raw.splitlines()`. -/
def pySplitLines (s : String) : List String := splitLinesGo s.toList []

/-- The accumulation loop of `split_entries` (app.py:746). -/
def seLoop : List String → List String → String → List String
  | [], entries, cur => if cur ≠ "" then entries ++ [pyStrip cur] else entries
  | line :: rest, entries, cur =>
    if pyStrip line = "" then seLoop rest entries cur
    else if markerTest line ∧ cur ≠ "" then
      seLoop rest (entries ++ [pyStrip cur]) (pyStrip line)
    else
      seLoop rest entries
        (if cur ≠ "" then pyStrip (cur ++ " " ++ pyStrip line) else pyStrip line)

/-- The non-blank stripped lines used by the one-entry-per-line special
case of `split_entries` (app.py:759). -/
def nonBlankLines (raw : String) : List String :=
  (pySplitLines raw).filterMap
    (fun l => if pyStrip l ≠ "" then some (pyStrip l) else none)

/-- `split_entries` (app.py:738). -/
def split_entries (raw : String) : List String :=
  let raw := pyStrip raw
  if raw = "" then []
  else
    let lines := (pySplitLines raw).map pyRStrip
    let entries := seLoop lines [] ""
    if entries.length = 1 ∧ raw.toList.contains '\n' then
      let maybe := nonBlankLines raw
      if maybe.length ≥ 2 then maybe else entries
    else entries

/-! ## Specification-side machines

Definitions following the specification's wording, to be compared with the
source-translated definitions above. -/

/-- The specification's tier machine: run the tiers in order,
short-circuiting at the first tier that produces a result, with a fallback
result when every tier falls through. -/
def runTiers : List TierOut → BibResult → Except String (BibResult × List Call)
  | [], fb => .ok (fb, [])
  | t :: ts, fb => orElseT t (runTiers ts fb)

/-- The resolution pipeline as the specification states it: six ordered
tiers — DOI→Crossref, arXiv id, arXiv title search at the caller's
threshold, Semantic Scholar and OpenAlex at `max(70, threshold-10)`,
Crossref title search at `max(65, threshold-15)` — short-circuiting on the
first success, with the advisory failure as fallback. -/
def resolveSpec (env : Env) (raw : String) (threshold : Int) :
    Except String (BibResult × List Call) :=
  let text := pyStrip raw
  if text = "" then .ok (emptyFail raw, [])
  else
    let doi := extract_doi text
    let arxiv_id := extract_arxiv_id text
    let title := guess_title text
    runTiers
      [tier1 env raw doi,
       tier2 env raw arxiv_id,
       tier3 env raw title threshold,
       tier4 env raw title (max 70 (threshold - 10)),
       tier5 env raw title (max 70 (threshold - 10)),
       tier6 env raw title (max 65 (threshold - 15))]
      (advisoryFail raw)

/-- The quoted-span step of the spec's `guessTitle` cascade: the contents
of the first quoted span when they are at least 6 characters long. -/
def quotedStep (t : String) : Option String :=
  match quotedScan t.toList with
  | some g => if g.length ≥ 6 then some (pyRStripDots (pyStrip (String.mk g))) else none
  | none => none

/-- The longest `.`/`;` segment step: returned only when longer than 15
characters. -/
def longestSegmentStep (t : String) : Option String :=
  match ((splitOnChars ['.', ';'] t.toList).map pyStrip).filter (· ≠ "") with
  | [] => none
  | p :: ps =>
    let cand := maxByLenFirst p ps
    if cand.length > 15 then some (pyRStripDots (pyStrip cand)) else none

/-- The longest comma-chunk step. -/
def commaStep (t : String) : Option String :=
  if t.toList.contains ',' then
    match ((splitOnChars [','] t.toList).map pyStrip).filter (· ≠ "") with
    | [] => none
    | c :: cs => some (pyRStripDots (pyStrip (maxByLenFirst c cs)))
  else none

/-- First applicable step of a cascade, with a default. -/
def cascadeFirst (steps : List (Option String)) (dflt : String) : String :=
  (steps.findSome? id).getD dflt

/-- `guessTitle` as the specification words it: clean the text, then take
the first applicable of quoted span / longest sentence segment / longest
comma chunk, else the cleaned text verbatim. -/
def guessTitleSpec (text : String) : String :=
  if text = "" then ""
  else
    let t := cleanedInput text
    cascadeFirst [quotedStep t, longestSegmentStep t, commaStep t]
      (pyRStripDots (pyStrip t))

/-- One step of the spec's entry-splitter fold: skip blank lines; a line
with a leading enumeration marker flushes the running entry unless no
entry text has accumulated yet; otherwise the line joins the running
entry. -/
def seStep (st : List String × String) (line : String) : List String × String :=
  if pyStrip line = "" then st
  else if markerTest line ∧ st.2 ≠ "" then (st.1 ++ [pyStrip st.2], pyStrip line)
  else (st.1, if st.2 ≠ "" then pyStrip (st.2 ++ " " ++ pyStrip line) else pyStrip line)

/-- `splitEntries` as the specification words it: fold the lines with
`seStep`, flush the final running entry, and apply the one-entry-per-line
special case. -/
def splitEntriesSpec (raw : String) : List String :=
  let raw := pyStrip raw
  if raw = "" then []
  else
    let lines := (pySplitLines raw).map pyRStrip
    let st := lines.foldl seStep ([], "")
    let entries := if st.2 ≠ "" then st.1 ++ [pyStrip st.2] else st.1
    if entries.length = 1 ∧ raw.toList.contains '\n' then
      let maybe := nonBlankLines raw
      if maybe.length ≥ 2 then maybe else entries
    else entries

/-! ## Claims -/

/-- C1: For every non-empty input entry and every threshold, `resolve_one`
tries the six resolution tiers in the fixed order DOI→Crossref, arXiv id,
arXiv title search, Semantic Scholar, OpenAlex, Crossref title search,
returning at the first tier that succeeds; tier 3 fuzzy-matches at the
caller-supplied threshold, tiers 4 and 5 at `max(70, threshold-10)`, and
tier 6 at `max(65, threshold-15)`.  Stated as: `resolve_one` equals the
spec's short-circuiting tier machine over exactly that tier list with
exactly those thresholds, and the tier machine returns at the first tier
that produces a result, leaving the remaining tiers unexecuted. -/
theorem resolve_one_is_tier_machine :
    (∀ (env : Env) (raw : String) (threshold : Int),
       resolve_one env raw threshold = resolveSpec env raw threshold) ∧
    (∀ (ts : List TierOut) (fb b : BibResult) (tr : List Call),
       runTiers (Except.ok (some b, tr) :: ts) fb = .ok (b, tr)) := by
  constructor
  · intro env raw threshold
    rfl
  · intro ts fb b tr
    rfl

/-- An environment in which every adapter returns nothing. -/
def envEmpty : Env :=
  { crossrefWork := fun _ => none, arxivById := fun _ => none,
    arxivSearch := fun _ _ => [], ssSearch := fun _ _ => .arr [],
    oaSearch := fun _ _ => .arr [], crSearch := fun _ _ => .arr [],
    fuzz := fun _ _ => 0 }

/-- C10: For every query title and threshold, when the candidate list
supplied to a best-match function (`best_title_match_from_candidates`,
`best_arxiv_match`, `best_crossref_match`) is empty, the function returns
no candidate together with the score `-1` — a sentinel below the
documented `[0,100]` score range — rather than a score of `0`. -/
theorem best_match_empty_candidates_sentinel :
    (∀ (fz : String → String → Int) (title : String) (threshold : Int),
       best_title_match_from_candidates fz title [] threshold = (none, -1)) ∧
    (∀ (env : Env) (title : String) (threshold : Int),
       (∀ q n, env.arxivSearch q n = []) →
       (best_arxiv_match env title threshold).1 = (none, -1)) ∧
    (∀ (env : Env) (title : String) (threshold : Int),
       env.crSearch title 10 = Json.arr [] →
       (best_crossref_match env title threshold).1 = Except.ok (none, -1)) := by
  refine ⟨?_, ?_, ?_⟩
  · intro fz title threshold
    simp [best_title_match_from_candidates, btmLoop]
  · intro env title threshold h
    simp [best_arxiv_match, arxiv_search_title, h, arxivLoop]
  · intro env title threshold h
    simp [best_crossref_match, h, pyIter, crLoop]

/-- Witness for C10 at a concrete environment, title and threshold. -/
theorem best_match_empty_candidates_sentinel_witness :
    best_title_match_from_candidates (fun _ _ => (0 : Int)) "t" [] 80 = (none, -1) ∧
    (best_arxiv_match envEmpty "t" 80).1 = (none, -1) ∧
    (best_crossref_match envEmpty "t" 80).1 = Except.ok (none, -1) :=
  ⟨best_match_empty_candidates_sentinel.1 _ "t" 80,
   best_match_empty_candidates_sentinel.2.1 envEmpty "t" 80 (fun _ _ => rfl),
   best_match_empty_candidates_sentinel.2.2 envEmpty "t" 80 rfl⟩

/-- The reported score of the selection loop is the running maximum of the
seed and all candidate scores. -/
theorem btmLoop_snd_eq (fz : String → String → Int) (nt : String) :
    ∀ (cs : List (String × Json)) (best : Option Json) (bs : Int),
    (btmLoop fz nt cs best bs).2 =
      cs.foldl (fun acc c => max acc (fz nt (_norm c.1))) bs := by
  intro cs
  induction cs with
  | nil => intro best bs; rfl
  | cons hd tl ih =>
    intro best bs
    obtain ⟨ct, payload⟩ := hd
    simp only [btmLoop, List.foldl]
    split_ifs with h
    · rw [ih]
      congr 1
      exact (max_eq_right h.le).symm
    · rw [ih]
      congr 1
      exact (max_eq_left (not_lt.mp h)).symm

/-- Structure of the selection loop's winning payload: either the seed
survives and nothing beat the seed score, or the winner is the first
candidate attaining the final score, every earlier candidate scoring
strictly below it. -/
theorem btmLoop_fst_spec (fz : String → String → Int) (nt : String) :
    ∀ (cs : List (String × Json)) (best : Option Json) (bs : Int)
      (p : Json) (s : Int),
    btmLoop fz nt cs best bs = (some p, s) →
    (best = some p ∧ s = bs ∧ ∀ c ∈ cs, fz nt (_norm c.1) ≤ bs) ∨
    (∃ pre c post, cs = pre ++ c :: post ∧ p = c.2 ∧ fz nt (_norm c.1) = s ∧
       s > bs ∧ ∀ c' ∈ pre, fz nt (_norm c'.1) < s) := by
  intro cs
  induction cs with
  | nil =>
    intro best bs p s h
    simp only [btmLoop, Prod.mk.injEq] at h
    exact Or.inl ⟨h.1, h.2.symm, by simp⟩
  | cons hd tl ih =>
    intro best bs p s h
    obtain ⟨ct, payload⟩ := hd
    simp only [btmLoop] at h
    split_ifs at h with hgt
    · rcases ih _ _ _ _ h with ⟨h1, h2, h3⟩ | ⟨pre, c, post, hcs, hp, hsc, hgt2, hpre⟩
      · refine Or.inr ⟨[], (ct, payload), tl, by simp, ?_, ?_, ?_, by simp⟩
        · simpa using h1.symm
        · exact h2.symm
        · omega
      · refine Or.inr ⟨(ct, payload) :: pre, c, post, by simp [hcs], hp, hsc, ?_, ?_⟩
        · omega
        · intro c' hc'
          rcases List.mem_cons.mp hc' with hc' | hc'
          · subst hc'
            exact hgt2
          · exact hpre c' hc'
    · rcases ih _ _ _ _ h with ⟨h1, h2, h3⟩ | ⟨pre, c, post, hcs, hp, hsc, hgt2, hpre⟩
      · refine Or.inl ⟨h1, h2, ?_⟩
        intro c hc
        rcases List.mem_cons.mp hc with hc | hc
        · subst hc
          exact not_lt.mp hgt
        · exact h3 c hc
      · refine Or.inr ⟨(ct, payload) :: pre, c, post, by simp [hcs], hp, hsc, hgt2, ?_⟩
        intro c' hc'
        rcases List.mem_cons.mp hc' with hc' | hc'
        · subst hc'
          have hle : fz nt (_norm ct) ≤ bs := not_lt.mp hgt
          have : fz nt (_norm ct) < s := by omega
          exact this
        · exact hpre c' hc'

/-- C6: For every query, candidate list and threshold, the best-match
selection scores every candidate, keeps the maximum score with ties broken
in favor of the first-seen candidate, returns that candidate only when the
maximum score is at least the threshold, and otherwise returns no
candidate together with the maximum score seen — in particular it returns
`none` whenever every candidate scores below the threshold, even if one
candidate is the unique maximum. -/
theorem best_title_match_selects_max :
    ∀ (fz : String → String → Int) (title : String)
      (candidates : List (String × Json)) (threshold : Int),
    (best_title_match_from_candidates fz title candidates threshold).2 =
      candidates.foldl (fun acc c => max acc (fz (_norm title) (_norm c.1))) (-1) ∧
    (∀ p, (best_title_match_from_candidates fz title candidates threshold).1 = some p →
       threshold ≤ (best_title_match_from_candidates fz title candidates threshold).2 ∧
       ∃ pre c post, candidates = pre ++ c :: post ∧ p = c.2 ∧
         fz (_norm title) (_norm c.1) =
           (best_title_match_from_candidates fz title candidates threshold).2 ∧
         ∀ c' ∈ pre, fz (_norm title) (_norm c'.1) <
           (best_title_match_from_candidates fz title candidates threshold).2) ∧
    ((best_title_match_from_candidates fz title candidates threshold).2 < threshold →
       (best_title_match_from_candidates fz title candidates threshold).1 = none) := by
  intro fz title candidates threshold
  rcases hbt : btmLoop fz (_norm title) candidates none (-1) with ⟨best, bs⟩
  have hsnd := btmLoop_snd_eq fz (_norm title) candidates none (-1)
  rw [hbt] at hsnd
  simp only [] at hsnd
  rcases best with _ | b
  · simp only [best_title_match_from_candidates, hbt]
    refine ⟨hsnd, ?_, ?_⟩
    · intro p hp
      simp at hp
    · intro _
      trivial
  · by_cases hcond : truthy b = true ∧ bs ≥ threshold
    · simp only [best_title_match_from_candidates, hbt, if_pos hcond]
      refine ⟨hsnd, ?_, ?_⟩
      · intro p hp
        have hbp : b = p := Option.some.inj (by simpa using hp)
        subst hbp
        rcases btmLoop_fst_spec fz (_norm title) candidates none (-1) b bs hbt with
          ⟨h1, -, -⟩ | ⟨pre, c, post, hcs, hpc, hsc, -, hpre⟩
        · exact absurd h1 (by simp)
        · exact ⟨hcond.2, pre, c, post, hcs, hpc, hsc, hpre⟩
      · intro hlt
        exact absurd hcond.2 (by omega)
    · simp only [best_title_match_from_candidates, hbt, if_neg hcond]
      refine ⟨hsnd, ?_, ?_⟩
      · intro p hp
        simp at hp
      · intro _
        trivial

/-- Witness for C6: applying the selection theorem at a concrete scorer,
query, candidate list and threshold whose maximum score is below the
threshold. -/
theorem best_title_match_selects_max_witness :
    (best_title_match_from_candidates (fun _ _ => (80 : Int)) "q"
        [("a", Json.obj [("k", Json.num 1)])] 85).2 < 85 ∧
    (best_title_match_from_candidates (fun _ _ => (80 : Int)) "q"
        [("a", Json.obj [("k", Json.num 1)])] 85).1 = none :=
  ⟨by decide,
   (best_title_match_selects_max (fun _ _ => (80 : Int)) "q"
      [("a", Json.obj [("k", Json.num 1)])] 85).2.2 (by decide)⟩

/-- Every `some` outcome of tier 2 is a success result. -/
theorem tier2_some_shape (env : Env) (raw : String) (aid : Option String)
    (b : BibResult) (tr : List Call) :
    tier2 env raw aid = .ok (some b, tr) →
    ∃ src t s1 s2, b = successResult raw src t s1 s2 := by
  intro h
  unfold tier2 at h
  simp only [] at h
  repeat' split at h
  all_goals simp at h
  all_goals exact ⟨_, _, _, _, h.1.symm⟩

/-- Every `some` outcome of tier 3 is a success result. -/
theorem tier3_some_shape (env : Env) (raw title : String) (threshold : Int)
    (b : BibResult) (tr : List Call) :
    tier3 env raw title threshold = .ok (some b, tr) →
    ∃ src t s1 s2, b = successResult raw src t s1 s2 := by
  intro h
  unfold tier3 at h
  try simp only [] at h
  repeat' split at h
  all_goals simp at h
  all_goals exact ⟨_, _, _, _, h.1.symm⟩

/-- Every `some` outcome of the tier-4 DOI suffix is a success result. -/
theorem tier4Doi_some_shape (env : Env) (raw : String) (score : Int)
    (doi2 : Option String) (tr0 : List Call) (b : BibResult) (tr : List Call) :
    tier4Doi env raw score doi2 tr0 = .ok (some b, tr) →
    ∃ src t s1 s2, b = successResult raw src t s1 s2 := by
  intro h
  unfold tier4Doi at h
  try simp only [] at h
  repeat' split at h
  all_goals simp at h
  all_goals exact ⟨_, _, _, _, h.1.symm⟩

/-- Every `some` outcome of tier 4 is a success result. -/
theorem tier4_some_shape (env : Env) (raw title : String) (threshold : Int)
    (b : BibResult) (tr : List Call) :
    tier4 env raw title threshold = .ok (some b, tr) →
    ∃ src t s1 s2, b = successResult raw src t s1 s2 := by
  intro h
  unfold tier4 at h
  try simp only [] at h
  repeat' split at h
  all_goals try simp at h
  all_goals
    first
    | exact ⟨_, _, _, _, h.1.symm⟩
    | exact tier4Doi_some_shape _ _ _ _ _ _ _ h

/-- Every `some` outcome of tier 5 is a success result. -/
theorem tier5_some_shape (env : Env) (raw title : String) (threshold : Int)
    (b : BibResult) (tr : List Call) :
    tier5 env raw title threshold = .ok (some b, tr) →
    ∃ src t s1 s2, b = successResult raw src t s1 s2 := by
  intro h
  unfold tier5 at h
  try simp only [] at h
  repeat' split at h
  all_goals simp at h
  all_goals exact ⟨_, _, _, _, h.1.symm⟩

/-- Every `some` outcome of tier 6 is a success result. -/
theorem tier6_some_shape (env : Env) (raw title : String) (threshold : Int)
    (b : BibResult) (tr : List Call) :
    tier6 env raw title threshold = .ok (some b, tr) →
    ∃ src t s1 s2, b = successResult raw src t s1 s2 := by
  intro h
  unfold tier6 at h
  try simp only [] at h
  repeat' split at h
  all_goals simp at h
  all_goals exact ⟨_, _, _, _, h.1.symm⟩

/-- Every `some` outcome of tier 1: the DOI was present and non-empty,
Crossref returned a truthy payload, one adapter call was made, and the
result is either a success (conversion succeeded) or the caught-exception
failure carrying the converter's exception text. -/
theorem tier1_some_shape (env : Env) (raw : String) (doiOpt : Option String)
    (b : BibResult) (tr : List Call) :
    tier1 env raw doiOpt = .ok (some b, tr) →
    ∃ d m, doiOpt = some d ∧ d ≠ "" ∧ env.crossrefWork d = some m ∧
      truthy m = true ∧ tr = [Call.crWork d] ∧
      ((∃ t s1 s2, tier1Convert m = .ok (s1, s2, t) ∧
          b = successResult raw "DOI/Crossref" t s1 s2) ∨
       (∃ e, tier1Convert m = .error e ∧ b = tier1Fail raw e)) := by
  intro h
  unfold tier1 at h
  split_ifs at h with htr
  · rcases doiOpt with _ | d
    · simp [optStrTruthy] at htr
    · have hd : d ≠ "" := by simpa [optStrTruthy] using htr
      simp only [Option.getD_some] at h
      rcases hcw : env.crossrefWork d with _ | m
      · rw [hcw] at h
        simp at h
      · rw [hcw] at h
        simp only [] at h
        split_ifs at h with htm
        · rcases htc : tier1Convert m with e | ⟨bib, ris, t⟩
          · rw [htc] at h
            simp at h
            exact ⟨d, m, rfl, hd, hcw, htm, h.2.symm,
              Or.inr ⟨e, htc, h.1.symm⟩⟩
          · rw [htc] at h
            simp at h
            exact ⟨d, m, rfl, hd, hcw, htm, h.2.symm,
              Or.inl ⟨t, bib, ris, htc, h.1.symm⟩⟩
        · simp at h
  · simp at h

/-- Case analysis of the short-circuit combinator. -/
theorem orElseT_cases (x : TierOut) (k : Except String (BibResult × List Call))
    (r : BibResult) (tr : List Call) :
    orElseT x k = .ok (r, tr) →
    x = .ok (some r, tr) ∨
    ∃ tr1 tr2, x = .ok (none, tr1) ∧ k = .ok (r, tr2) ∧ tr = tr1 ++ tr2 := by
  intro h
  rcases x with e | ⟨ob, tr1⟩
  · simp [orElseT] at h
  · rcases ob with _ | b
    · rcases k with e | ⟨rb, tr2⟩
      · simp [orElseT] at h
      · simp only [orElseT, Except.ok.injEq, Prod.mk.injEq] at h
        exact Or.inr ⟨tr1, tr2, rfl, by rw [h.1], h.2.symm⟩
    · simp only [orElseT, Except.ok.injEq, Prod.mk.injEq, Option.some.injEq] at h
      exact Or.inl (by rw [h.1, h.2])

/-- Master case analysis of `resolve_one`: every returned record is a
success result, the empty-input failure, the advisory failure, or the
caught tier-1 conversion failure (with its provenance). -/
theorem resolve_one_cases (env : Env) (raw : String) (threshold : Int)
    (r : BibResult) (tr : List Call) :
    resolve_one env raw threshold = .ok (r, tr) →
    (∃ src t s1 s2, r = successResult raw src t s1 s2) ∨
    r = emptyFail raw ∨ r = advisoryFail raw ∨
    (∃ d m e, extract_doi (pyStrip raw) = some d ∧ d ≠ "" ∧
       env.crossrefWork d = some m ∧ truthy m = true ∧
       tier1Convert m = .error e ∧ r = tier1Fail raw e) := by
  intro h
  have h2 :
      (if pyStrip raw = "" then Except.ok (emptyFail raw, ([] : List Call))
       else
        orElseT (tier1 env raw (extract_doi (pyStrip raw)))
          (orElseT (tier2 env raw (extract_arxiv_id (pyStrip raw)))
            (orElseT (tier3 env raw (guess_title (pyStrip raw)) threshold)
              (orElseT (tier4 env raw (guess_title (pyStrip raw)) (max 70 (threshold - 10)))
                (orElseT (tier5 env raw (guess_title (pyStrip raw)) (max 70 (threshold - 10)))
                  (orElseT (tier6 env raw (guess_title (pyStrip raw)) (max 65 (threshold - 15)))
                    (Except.ok (advisoryFail raw, [])))))))) =
        Except.ok (r, tr) := h
  clear h
  rename' h2 => h
  split_ifs at h with hempty
  · simp at h
    exact Or.inr (Or.inl h.1.symm)
  · rcases orElseT_cases _ _ _ _ h with h1 | ⟨_, _, _, hk, _⟩
    · rcases tier1_some_shape _ _ _ _ _ h1 with
        ⟨d, m, hdo, hd, hcw, htm, _, ⟨t, s1, s2, _, hb⟩ | ⟨e, htc, hb⟩⟩
      · exact Or.inl ⟨_, _, _, _, hb⟩
      · exact Or.inr (Or.inr (Or.inr ⟨d, m, e, hdo, hd, hcw, htm, htc, hb⟩))
    · rcases orElseT_cases _ _ _ _ hk with h2 | ⟨_, _, _, hk, _⟩
      · exact Or.inl (tier2_some_shape _ _ _ _ _ h2)
      · rcases orElseT_cases _ _ _ _ hk with h3 | ⟨_, _, _, hk, _⟩
        · exact Or.inl (tier3_some_shape _ _ _ _ _ _ h3)
        · rcases orElseT_cases _ _ _ _ hk with h4 | ⟨_, _, _, hk, _⟩
          · exact Or.inl (tier4_some_shape _ _ _ _ _ _ h4)
          · rcases orElseT_cases _ _ _ _ hk with h5 | ⟨_, _, _, hk, _⟩
            · exact Or.inl (tier5_some_shape _ _ _ _ _ _ h5)
            · rcases orElseT_cases _ _ _ _ hk with h6 | ⟨_, _, _, hk, _⟩
              · exact Or.inl (tier6_some_shape _ _ _ _ _ _ h6)
              · simp at hk
                exact Or.inr (Or.inr (Or.inl hk.1.symm))

/-- C2: Every `BibResult` that `resolve_one` returns satisfies the record
invariant: if the success flag is true then at least one of the bibtex and
ris fields is populated (in fact both), and if the success flag is false
then bibtex and ris are both absent and the message field is populated. -/
theorem resolve_one_record_invariant (env : Env) (raw : String)
    (threshold : Int) (r : BibResult) (tr : List Call) :
    resolve_one env raw threshold = .ok (r, tr) →
    (r.ok = true → r.bibtex.isSome ∨ r.ris.isSome) ∧
    (r.ok = false → r.bibtex = none ∧ r.ris = none ∧ r.message.isSome) := by
  intro h
  rcases resolve_one_cases env raw threshold r tr h with
    ⟨src, t, s1, s2, rfl⟩ | rfl | rfl | ⟨d, m, e, -, -, -, -, -, rfl⟩
  · exact ⟨fun _ => Or.inl (by simp [successResult]),
      fun hf => by simp [successResult] at hf⟩
  · exact ⟨fun ht => by simp [emptyFail] at ht, fun _ => by simp [emptyFail]⟩
  · exact ⟨fun ht => by simp [advisoryFail] at ht, fun _ => by simp [advisoryFail]⟩
  · exact ⟨fun ht => by simp [tier1Fail] at ht, fun _ => by simp [tier1Fail]⟩

/-- Witness for C2: the invariant applied to the concrete advisory failure
produced by the all-empty environment on input `"x"`. -/
theorem resolve_one_record_invariant_witness :
    resolve_one envEmpty "x" 85 =
      .ok (advisoryFail "x",
        [Call.arxSearch "ti:\"x\"" 12, Call.arxSearch "x" 12,
         Call.ssSearch "x" 10, Call.oaSearch "x" 10, Call.crSearch "x" 10]) ∧
    (((advisoryFail "x").ok = true →
        (advisoryFail "x").bibtex.isSome ∨ (advisoryFail "x").ris.isSome) ∧
     ((advisoryFail "x").ok = false →
        (advisoryFail "x").bibtex = none ∧ (advisoryFail "x").ris = none ∧
          (advisoryFail "x").message.isSome)) :=
  ⟨by rfl, resolve_one_record_invariant envEmpty "x" 85 _ _ (by rfl)⟩

/-- An environment whose only response is a Crossref work on which both
converters raise (its `title` is a number, so `title_list[0]` is a
`TypeError`). -/
def envExc : Env :=
  { envEmpty with
    crossrefWork := fun d =>
      if d = "10.1234/x" then some (Json.obj [("title", Json.num 5)]) else none }

/-- C5: If a converter raises an exception while formatting a Crossref
record fetched in tier 1 (DOI present and Crossref lookup succeeded),
`resolve_one` catches it and returns a failure result whose message is the
exception's text, attempting no further tiers for that entry (the call
trace is exactly the one Crossref fetch, for every environment); and no
other tier converts an exception into a failure result this way: every
failure result is the empty-input failure, the advisory failure, or a
caught tier-1 conversion failure. -/
theorem tier1_catches_converter_exceptions :
    (∀ (env : Env) (raw : String) (threshold : Int) (d : String) (m : Json)
       (e : String),
       pyStrip raw ≠ "" →
       extract_doi (pyStrip raw) = some d → d ≠ "" →
       env.crossrefWork d = some m → truthy m = true →
       tier1Convert m = .error e →
       resolve_one env raw threshold = .ok (tier1Fail raw e, [Call.crWork d])) ∧
    (∀ (env : Env) (raw : String) (threshold : Int) (r : BibResult)
       (tr : List Call),
       resolve_one env raw threshold = .ok (r, tr) → r.ok = false →
       r = emptyFail raw ∨ r = advisoryFail raw ∨
       ∃ d m e, extract_doi (pyStrip raw) = some d ∧ d ≠ "" ∧
         env.crossrefWork d = some m ∧ truthy m = true ∧
         tier1Convert m = .error e ∧ r = tier1Fail raw e) := by
  constructor
  · intro env raw threshold d m e hne hdoi hd hcw htm htc
    have htrue : optStrTruthy (some d) = true := by
      simpa [optStrTruthy] using hd
    have ht1 : tier1 env raw (extract_doi (pyStrip raw)) =
        .ok (some (tier1Fail raw e), [Call.crWork d]) := by
      rw [hdoi]
      unfold tier1
      rw [if_pos htrue]
      simp only [Option.getD_some]
      rw [hcw]
      simp only []
      rw [if_pos htm, htc]
    show
      (if pyStrip raw = "" then Except.ok (emptyFail raw, ([] : List Call))
       else
        orElseT (tier1 env raw (extract_doi (pyStrip raw)))
          (orElseT (tier2 env raw (extract_arxiv_id (pyStrip raw)))
            (orElseT (tier3 env raw (guess_title (pyStrip raw)) threshold)
              (orElseT (tier4 env raw (guess_title (pyStrip raw)) (max 70 (threshold - 10)))
                (orElseT (tier5 env raw (guess_title (pyStrip raw)) (max 70 (threshold - 10)))
                  (orElseT (tier6 env raw (guess_title (pyStrip raw)) (max 65 (threshold - 15)))
                    (Except.ok (advisoryFail raw, [])))))))) =
        Except.ok (tier1Fail raw e, [Call.crWork d])
    rw [if_neg hne, ht1]
    rfl
  · intro env raw threshold r tr h hfail
    rcases resolve_one_cases env raw threshold r tr h with
      ⟨src, t, s1, s2, rfl⟩ | rfl | rfl | ⟨d, m, e, h1, h2, h3, h4, h5, rfl⟩
    · simp [successResult] at hfail
    · exact Or.inl rfl
    · exact Or.inr (Or.inl rfl)
    · exact Or.inr (Or.inr ⟨d, m, e, h1, h2, h3, h4, h5, rfl⟩)

/-- Witness for C5: a concrete environment in which the Crossref payload
for the extracted DOI makes both converters raise, so tier 1 returns the
caught failure after exactly one adapter call. -/
theorem tier1_catches_converter_exceptions_witness :
    pyStrip "10.1234/x" ≠ "" ∧
    extract_doi (pyStrip "10.1234/x") = some "10.1234/x" ∧
    envExc.crossrefWork "10.1234/x" = some (Json.obj [("title", Json.num 5)]) ∧
    truthy (Json.obj [("title", Json.num 5)]) = true ∧
    tier1Convert (Json.obj [("title", Json.num 5)]) = .error "TypeError" ∧
    resolve_one envExc "10.1234/x" 85 =
      .ok (tier1Fail "10.1234/x" "TypeError", [Call.crWork "10.1234/x"]) :=
  ⟨by decide, by rfl, by rfl, by rfl, by rfl,
   tier1_catches_converter_exceptions.1 envExc "10.1234/x" 85 "10.1234/x"
     (Json.obj [("title", Json.num 5)]) "TypeError"
     (by decide) (by rfl) (by decide) (by rfl) (by rfl) (by rfl)⟩

/-! ## Substring lemmas for the BibTeX output -/

theorem strAppendAssoc (a b c : String) : (a ++ b) ++ c = a ++ (b ++ c) := by
  rcases a with ⟨la⟩
  rcases b with ⟨lb⟩
  rcases c with ⟨lc⟩
  show String.mk (la ++ lb ++ lc) = String.mk (la ++ (lb ++ lc))
  rw [List.append_assoc]

theorem toList_append (a b : String) : (a ++ b).toList = a.toList ++ b.toList := by
  rcases a with ⟨la⟩
  rcases b with ⟨lb⟩
  rfl

theorem isPrefOf_append_ext (pat : List Char) :
    ∀ (s z : List Char), isPrefOf pat s = true → isPrefOf pat (s ++ z) = true := by
  induction pat with
  | nil => intro s z _; rfl
  | cons a pa ih =>
    intro s z h
    rcases s with _ | ⟨b, s'⟩
    · simp [isPrefOf] at h
    · simp only [isPrefOf, Bool.and_eq_true] at h
      simpa [isPrefOf, h.1] using ih s' z h.2

theorem hasSub_append_of_left (pat : List Char) :
    ∀ (x z : List Char), hasSub pat x = true → hasSub pat (x ++ z) = true := by
  intro x
  induction x with
  | nil =>
    intro z h
    simp only [hasSub] at h
    rcases pat with _ | ⟨a, pa⟩
    · rcases z with _ | ⟨c, z'⟩
      · exact h
      · simp [hasSub, isPrefOf]
    · simp [isPrefOf] at h
  | cons c x' ih =>
    intro z h
    simp only [hasSub, Bool.or_eq_true] at h ⊢
    rcases h with h | h
    · exact Or.inl (isPrefOf_append_ext pat (c :: x') z h)
    · exact Or.inr (ih z h)

theorem hasSub_append_right (pat : List Char) :
    ∀ (x s : List Char), hasSub pat s = true → hasSub pat (x ++ s) = true := by
  intro x
  induction x with
  | nil => intro s h; exact h
  | cons c x' ih =>
    intro s h
    simp only [List.cons_append, hasSub, Bool.or_eq_true]
    exact Or.inr (ih s h)

/-- Searching in a suffix. -/
theorem containsSub_append_right (x s pat : String)
    (h : containsSub s pat = true) : containsSub (x ++ s) pat = true := by
  unfold containsSub at h ⊢
  rw [toList_append]
  exact hasSub_append_right pat.toList x.toList s.toList h

/-- Searching in a prefix. -/
theorem containsSub_append_of_left (x z pat : String)
    (h : containsSub x pat = true) : containsSub (x ++ z) pat = true := by
  unfold containsSub at h ⊢
  rw [toList_append]
  exact hasSub_append_of_left pat.toList x.toList z.toList h

/-- Any successful output of the arXiv BibTeX converter has the
doubled-brace f-string shape, with its `eprint` field equal to the
record's short id. -/
theorem format_arxiv_to_bibtex_ok_shape (r : ArxivResult) (bib : String)
    (h : format_arxiv_to_bibtex r = .ok bib) :
    ∃ key, bib =
      "@misc\x7b" ++ key ++ ",\n"
        ++ "  title=\x7b\x7b" ++ latex_escape (pyStrip r.title) ++ "\x7d\x7d,\n"
        ++ "  author=\x7b\x7b" ++
          latex_escape (String.intercalate " and " r.authorNames) ++ "\x7d\x7d,\n"
        ++ "  year=\x7b\x7b" ++ pyStrOptNat (r.published.map (·.y)) ++ "\x7d\x7d,\n"
        ++ "  eprint=\x7b\x7b" ++ r.shortId ++ "\x7d\x7d,\n"
        ++ "  archivePrefix=\x7b\x7barXiv\x7d\x7d,\n"
        ++ "  primaryClass=\x7b\x7b" ++ r.primaryCategory.getD "" ++ "\x7d\x7d,\n"
        ++ "  url=\x7b\x7b" ++ r.entryId ++ "\x7d\x7d,\n"
        ++ "\x7d" := by
  unfold format_arxiv_to_bibtex at h
  simp only [] at h
  split at h
  · exact absurd h (by simp)
  · exact ⟨_, (Except.ok.inj h).symm⟩

/-- The concrete arXiv record used to exercise the end-to-end arXiv-id
scenario of the claims. -/
def rec1 : ArxivResult :=
  { title := "Test", authorNames := ["A B"],
    published := some { y := 2021, m := 10, d := 26 },
    primaryCategory := some "cs.LG",
    entryId := "http://arxiv.org/abs/2110.14051v1", shortId := "2110.14051" }

/-- An environment whose arXiv adapter knows exactly the id `2110.14051`. -/
def envArx : Env :=
  { envEmpty with
    arxivById := fun a => if a = "2110.14051" then some rec1 else none }

/-- The BibTeX text `format_arxiv_to_bibtex` produces for `rec1`. -/
def bib1 : String :=
  match format_arxiv_to_bibtex rec1 with
  | .ok s => s
  | .error e => e

set_option maxRecDepth 100000 in
/-- Counterexample to C3 as stated: with the arXiv adapter returning the
record for `2110.14051`, `resolve_one` succeeds with source `"arXiv"`, but
the generated BibTeX does **not** contain the substring
`eprint={2110.14051}` — the converter's f-string doubles every brace, so
the output reads `eprint={{2110.14051}}`. -/
theorem resolve_one_arxiv_eprint_brace_counterexample :
    envArx.arxivById "2110.14051" = some rec1 ∧
    rec1.shortId = "2110.14051" ∧
    format_arxiv_to_bibtex rec1 = .ok bib1 ∧
    resolve_one envArx "2110.14051" 85 =
      .ok (successResult "2110.14051" "arXiv" (some (.str "Test")) bib1
             (format_arxiv_to_ris rec1), [Call.arxId "2110.14051"]) ∧
    (successResult "2110.14051" "arXiv" (some (.str "Test")) bib1
       (format_arxiv_to_ris rec1)).ok = true ∧
    (successResult "2110.14051" "arXiv" (some (.str "Test")) bib1
       (format_arxiv_to_ris rec1)).source = "arXiv" ∧
    containsSub bib1 "eprint=\x7b2110.14051\x7d" = false :=
  ⟨rfl, rfl, rfl, rfl, rfl, rfl, by decide⟩

/-- C3 (amended): For the input `"2110.14051"` and any threshold, given
that the arXiv adapter returns the record for that identifier (and the
record is well-formed enough for the converter to succeed), `resolve_one`
returns a successful result whose source label is `"arXiv"` and whose
generated BibTeX text contains the substring `eprint={{2110.14051}}`
(doubled braces, as the converter's f-string emits them). -/
theorem resolve_one_arxiv_eprint_doubled_braces
    (env : Env) (threshold : Int) (r : ArxivResult) (bib : String)
    (hById : env.arxivById "2110.14051" = some r)
    (hsid : r.shortId = "2110.14051")
    (hbib : format_arxiv_to_bibtex r = .ok bib) :
    resolve_one env "2110.14051" threshold =
      .ok (successResult "2110.14051" "arXiv" (some (.str r.title)) bib
             (format_arxiv_to_ris r), [Call.arxId "2110.14051"]) ∧
    (successResult "2110.14051" "arXiv" (some (.str r.title)) bib
       (format_arxiv_to_ris r)).ok = true ∧
    (successResult "2110.14051" "arXiv" (some (.str r.title)) bib
       (format_arxiv_to_ris r)).source = "arXiv" ∧
    containsSub bib "eprint=\x7b\x7b2110.14051\x7d\x7d" = true := by
  have ht2 : tier2 env "2110.14051" (some "2110.14051") =
      .ok (some (successResult "2110.14051" "arXiv" (some (.str r.title)) bib
             (format_arxiv_to_ris r)), [Call.arxId "2110.14051"]) := by
    unfold tier2
    rw [if_pos (by decide)]
    simp only [Option.getD_some]
    rw [hById]
    simp only []
    rw [hbib]
  refine ⟨?_, rfl, rfl, ?_⟩
  · show
      (if pyStrip "2110.14051" = "" then
        Except.ok (emptyFail "2110.14051", ([] : List Call))
       else
        orElseT (tier1 env "2110.14051" (extract_doi (pyStrip "2110.14051")))
          (orElseT (tier2 env "2110.14051" (extract_arxiv_id (pyStrip "2110.14051")))
            (orElseT (tier3 env "2110.14051" (guess_title (pyStrip "2110.14051")) threshold)
              (orElseT (tier4 env "2110.14051" (guess_title (pyStrip "2110.14051"))
                  (max 70 (threshold - 10)))
                (orElseT (tier5 env "2110.14051" (guess_title (pyStrip "2110.14051"))
                    (max 70 (threshold - 10)))
                  (orElseT (tier6 env "2110.14051" (guess_title (pyStrip "2110.14051"))
                      (max 65 (threshold - 15)))
                    (Except.ok (advisoryFail "2110.14051", [])))))))) =
        Except.ok (successResult "2110.14051" "arXiv" (some (.str r.title)) bib
             (format_arxiv_to_ris r), [Call.arxId "2110.14051"])
    rw [if_neg (by decide)]
    have ht1 : tier1 env "2110.14051" (extract_doi (pyStrip "2110.14051")) =
        Except.ok (none, ([] : List Call)) := rfl
    rw [ht1]
    have harx : extract_arxiv_id (pyStrip "2110.14051") = some "2110.14051" := rfl
    rw [harx, ht2]
    rfl
  · obtain ⟨key, hb⟩ := format_arxiv_to_bibtex_ok_shape r bib hbib
    rw [hb, hsid]
    simp only [strAppendAssoc]
    iterate 12 refine containsSub_append_right _ _ _ ?_
    rw [← strAppendAssoc "  eprint=\x7b\x7b" "2110.14051" _,
      ← strAppendAssoc ("  eprint=\x7b\x7b" ++ "2110.14051") "\x7d\x7d,\n" _]
    refine containsSub_append_of_left _ _ _ ?_
    rfl

set_option maxRecDepth 100000 in
/-- Witness: the amended C3 statement instantiated at the concrete
environment `envArx`, record `rec1` and its BibTeX text `bib1`. -/
theorem resolve_one_arxiv_eprint_doubled_braces_witness :
    resolve_one envArx "2110.14051" 85 =
      .ok (successResult "2110.14051" "arXiv" (some (.str rec1.title)) bib1
             (format_arxiv_to_ris rec1), [Call.arxId "2110.14051"]) ∧
    (successResult "2110.14051" "arXiv" (some (.str rec1.title)) bib1
       (format_arxiv_to_ris rec1)).ok = true ∧
    (successResult "2110.14051" "arXiv" (some (.str rec1.title)) bib1
       (format_arxiv_to_ris rec1)).source = "arXiv" ∧
    containsSub bib1 "eprint=\x7b\x7b2110.14051\x7d\x7d" = true :=
  resolve_one_arxiv_eprint_doubled_braces envArx 85 rec1 bib1 rfl rfl (by rfl)

/-! ## C4: omission of empty fields by the converters -/

/-- Every element the RIS line builders put in their lists is either the
terminator or some `_ris_line` application. -/
def risRaw (ln : String) : Prop :=
  ln = "ER  -" ∨ ∃ tag v, ln = _ris_line tag v

/-- A well-formed emitted RIS line: the terminator, or a tag line whose
value part is non-empty. -/
def risShape (ln : String) : Prop :=
  ln = "ER  -" ∨ ∃ tag s, s ≠ "" ∧ ln = tag ++ "  - " ++ s

theorem ris_line_shape (tag : String) (v : Json) (h : _ris_line tag v ≠ "") :
    _ris_line tag v = tag ++ "  - " ++ ris_escape v ∧ ris_escape v ≠ "" := by
  unfold _ris_line at *
  by_cases hv : ris_escape v = ""
  · simp [hv] at h
  · rw [if_neg hv]
    exact ⟨rfl, hv⟩

theorem risShape_of (ln : String) (hraw : risRaw ln) (hne : ln ≠ "") :
    risShape ln := by
  rcases hraw with h | ⟨tag, v, h⟩
  · exact Or.inl h
  · subst h
    obtain ⟨he, hv⟩ := ris_line_shape tag v hne
    exact Or.inr ⟨tag, ris_escape v, hv, he⟩

theorem risRaw_line (tag : String) (v : Json) : risRaw (_ris_line tag v) :=
  Or.inr ⟨tag, v, rfl⟩

theorem risRaw_er : risRaw "ER  -" := Or.inl rfl

theorem risRaw_nil : ∀ ln ∈ ([] : List String), risRaw ln := by simp

theorem risRaw_cons {x : String} {l : List String} (hx : risRaw x)
    (hl : ∀ ln ∈ l, risRaw ln) : ∀ ln ∈ x :: l, risRaw ln := by
  intro ln h
  rcases List.mem_cons.mp h with h | h
  · exact h ▸ hx
  · exact hl ln h

theorem risRaw_append {l1 l2 : List String} (h1 : ∀ ln ∈ l1, risRaw ln)
    (h2 : ∀ ln ∈ l2, risRaw ln) : ∀ ln ∈ l1 ++ l2, risRaw ln :=
  List.forall_mem_append.mpr ⟨h1, h2⟩

theorem risRaw_ite (c : Prop) [Decidable c] (l1 l2 : List String)
    (h1 : ∀ ln ∈ l1, risRaw ln) (h2 : ∀ ln ∈ l2, risRaw ln) :
    ∀ ln ∈ (if c then l1 else l2), risRaw ln := by
  split
  · exact h1
  · exact h2

/-- The author `filterMap` of both RIS builders only keeps `_ris_line`s. -/
theorem risRaw_au (authors : List String) :
    ∀ ln ∈ authors.filterMap (fun a =>
        let ln := _ris_line "AU" (.str a)
        if ln = "" then none else some ln), risRaw ln := by
  intro ln h
  obtain ⟨a, -, hfa⟩ := List.mem_filterMap.mp h
  simp only [] at hfa
  split at hfa
  · exact absurd hfa (by simp)
  · exact Or.inr ⟨_, _, (Option.some.inj hfa).symm⟩

theorem risLinesArxiv_mem (r : ArxivResult) :
    ∀ ln ∈ risLinesArxiv r, risRaw ln := by
  unfold risLinesArxiv
  simp only []
  refine risRaw_append (risRaw_append (risRaw_append (risRaw_append
    (risRaw_append (risRaw_append ?_ ?_) ?_) ?_) ?_) ?_) ?_
  · exact risRaw_cons (risRaw_line _ _) (risRaw_cons (risRaw_line _ _) risRaw_nil)
  · exact risRaw_au _
  · split
    · split
      · exact risRaw_cons (risRaw_line _ _) risRaw_nil
      · exact risRaw_nil
    · exact risRaw_nil
  · exact risRaw_ite _ _ _ (risRaw_cons (risRaw_line _ _) risRaw_nil) risRaw_nil
  · exact risRaw_cons (risRaw_line _ _) (risRaw_cons (risRaw_line _ _) risRaw_nil)
  · exact risRaw_ite _ _ _ (risRaw_cons (risRaw_line _ _) risRaw_nil) risRaw_nil
  · exact risRaw_cons (risRaw_line _ _) (risRaw_cons (risRaw_line _ _)
      (risRaw_cons risRaw_er risRaw_nil))

theorem risLinesCrossref_mem (m : Json) (ls : List String)
    (h : risLinesCrossref m = .ok ls) : ∀ ln ∈ ls, risRaw ln := by
  unfold risLinesCrossref at h
  rcases h1 : firstOrEmpty m "title" with e | title
  · rw [h1] at h; exact Except.noConfusion h
  rw [h1] at h; simp only [] at h
  rcases h2 : firstOrEmpty m "container-title" with e | container
  · rw [h2] at h; exact Except.noConfusion h
  rw [h2] at h; simp only [] at h
  rcases h3 : getStrField m "type" with e | typ
  · rw [h3] at h; exact Except.noConfusion h
  rw [h3] at h; simp only [] at h
  rcases h4 : getStrField m "DOI" with e | doi
  · rw [h4] at h; exact Except.noConfusion h
  rw [h4] at h; simp only [] at h
  rcases h5 : getStrField m "URL" with e | url
  · rw [h5] at h; exact Except.noConfusion h
  rw [h5] at h; simp only [] at h
  rcases h6 : getStrField m "volume" with e | volume
  · rw [h6] at h; exact Except.noConfusion h
  rw [h6] at h; simp only [] at h
  rcases h7 : getStrField m "issue" with e | number
  · rw [h7] at h; exact Except.noConfusion h
  rw [h7] at h; simp only [] at h
  rcases h8 : getStrField m "page" with e | pages
  · rw [h8] at h; exact Except.noConfusion h
  rw [h8] at h; simp only [] at h
  rcases h9 : getStrField m "publisher" with e | publisher
  · rw [h9] at h; exact Except.noConfusion h
  rw [h9] at h; simp only [] at h
  rcases h10 : authorsOf m with e | aus
  · rw [h10] at h; exact Except.noConfusion h
  rw [h10] at h; simp only [] at h
  rcases h11 : _crossref_best_date m with e | ⟨y, mo, d⟩
  · rw [h11] at h; exact Except.noConfusion h
  rw [h11] at h; simp only [] at h
  injection h with h'
  subst h'
  refine risRaw_append (risRaw_append (risRaw_append (risRaw_append
    (risRaw_append (risRaw_append (risRaw_append (risRaw_append
      (risRaw_append ?_ ?_) ?_) ?_) ?_) ?_) ?_) ?_) ?_) ?_
  · exact risRaw_cons (risRaw_line _ _) (risRaw_cons (risRaw_line _ _) risRaw_nil)
  · exact risRaw_au _
  · exact risRaw_ite _ _ _ (risRaw_cons (risRaw_line _ _) risRaw_nil) risRaw_nil
  · exact risRaw_ite _ _ _ (risRaw_cons (risRaw_line _ _) risRaw_nil) risRaw_nil
  · refine risRaw_ite _ _ _ ?_ ?_
    · refine risRaw_append (risRaw_append ?_ ?_) ?_
      · exact risRaw_ite _ _ _ (risRaw_cons (risRaw_line _ _)
          (risRaw_cons (risRaw_line _ _) risRaw_nil)) risRaw_nil
      · exact risRaw_ite _ _ _ (risRaw_cons (risRaw_line _ _) risRaw_nil) risRaw_nil
      · exact risRaw_ite _ _ _ (risRaw_cons (risRaw_line _ _) risRaw_nil) risRaw_nil
    · refine risRaw_append ?_ ?_
      · exact risRaw_ite _ _ _ (risRaw_cons (risRaw_line _ _) risRaw_nil) risRaw_nil
      · exact risRaw_ite _ _ _ (risRaw_cons (risRaw_line _ _) risRaw_nil) risRaw_nil
  · exact risRaw_ite _ _ _ (risRaw_cons (risRaw_line _ _) risRaw_nil) risRaw_nil
  · exact risRaw_ite _ _ _ (risRaw_cons (risRaw_line _ _) risRaw_nil) risRaw_nil
  · exact risRaw_ite _ _ _ (risRaw_cons (risRaw_line _ _) risRaw_nil) risRaw_nil
  · exact risRaw_ite _ _ _ (risRaw_cons (risRaw_line _ _) risRaw_nil) risRaw_nil
  · exact risRaw_cons risRaw_er risRaw_nil

theorem pyReplaceGo_eq_nil (fuel : Nat) (pat rep : List Char) :
    ∀ l : List Char, rep ≠ [] → pyReplaceGo fuel pat rep l = [] → l = [] := by
  induction fuel with
  | zero => intro l _ h; exact h
  | succ n ih =>
    intro l hrep h
    rcases l with _ | ⟨c, rest⟩
    · rfl
    · unfold pyReplaceGo at h
      split at h
      · exact absurd (List.append_eq_nil.mp h).1 hrep
      · exact absurd h (by simp)

theorem pyReplace_ne (s pat rep : String) (hrep : rep.toList ≠ [])
    (hs : s ≠ "") : pyReplace s pat rep ≠ "" := by
  intro h
  apply hs
  unfold pyReplace at h
  have h2 : pyReplaceGo s.toList.length pat.toList rep.toList s.toList = [] := by
    have := congrArg String.toList h
    simpa using this
  have h3 := pyReplaceGo_eq_nil _ _ _ _ hrep h2
  rcases s with ⟨l⟩
  simp only [String.toList] at h3
  simp [h3]

theorem latex_escape_ne (s : String) (hs : s ≠ "") : latex_escape s ≠ "" := by
  unfold latex_escape
  exact pyReplace_ne _ _ _ (by decide)
    (pyReplace_ne _ _ _ (by decide)
      (pyReplace_ne _ _ _ (by decide)
        (pyReplace_ne _ _ _ (by decide)
          (pyReplace_ne _ _ _ (by decide)
            (pyReplace_ne _ _ _ (by decide) hs)))))

theorem latexEscapeJ_ok_ne (v : Json) (w : String)
    (hok : latexEscapeJ v = .ok w) (ht : truthy v = true) : w ≠ "" := by
  cases v <;> simp only [latexEscapeJ] at hok <;> try exact Except.noConfusion hok
  case str s =>
    injection hok with h'
    subst h'
    refine latex_escape_ne s ?_
    intro he
    rw [he] at ht
    exact absurd ht (by decide)

theorem bibtexFieldLines_shape :
    ∀ (fields : List (String × Json)) (ls : List String),
      bibtexFieldLines fields = .ok ls →
      ∀ ln ∈ ls, ∃ k w, w ≠ "" ∧ ln = "  " ++ k ++ "=\x7b\x7b" ++ w ++ "\x7d\x7d," := by
  intro fields
  induction fields with
  | nil =>
    intro ls h ln hln
    injection h with h'
    subst h'
    exact absurd hln (List.not_mem_nil ln)
  | cons kv rest ih =>
    obtain ⟨k, v⟩ := kv
    intro ls h ln hln
    unfold bibtexFieldLines at h
    split at h
    · rcases hl : latexEscapeJ v with e | w
      · rw [hl] at h
        exact Except.noConfusion h
      · rw [hl] at h
        simp only [] at h
        rcases hr : bibtexFieldLines rest with e | ls'
        · rw [hr] at h
          exact Except.noConfusion h
        · rw [hr] at h
          simp only [Except.map] at h
          injection h with h'
          subst h'
          rcases List.mem_cons.mp hln with h1 | h1
          · exact ⟨k, w, latexEscapeJ_ok_ne v w hl (by assumption), h1⟩
          · exact ih ls' hr ln h1
    · exact ih ls h ln hln

theorem bibtexFieldLines_cons (k : String) (v : Json)
    (rest : List (String × Json)) :
    bibtexFieldLines ((k, v) :: rest) =
      if truthy v then
        match latexEscapeJ v with
        | .error e => .error e
        | .ok w =>
          (bibtexFieldLines rest).map
            (fun ls => ("  " ++ k ++ "=\x7b\x7b" ++ w ++ "\x7d\x7d,") :: ls)
      else bibtexFieldLines rest := rfl

theorem bibtexFieldLines_skipsFalsy (fields : List (String × Json)) :
    bibtexFieldLines fields =
      bibtexFieldLines (fields.filter (fun kv => truthy kv.2)) := by
  induction fields with
  | nil => rfl
  | cons kv rest ih =>
    obtain ⟨k, v⟩ := kv
    by_cases h : truthy v = true
    · rw [List.filter_cons_of_pos (by simpa using h), bibtexFieldLines_cons,
        bibtexFieldLines_cons, ih]
    · rw [List.filter_cons_of_neg (by simpa using h), bibtexFieldLines_cons,
        if_neg h]
      exact ih

theorem strEmptyAppend (s : String) : "" ++ s = s := by
  rcases s with ⟨l⟩
  rfl

/-- The arXiv record exposing the empty-field behaviour of the arXiv
BibTeX converter: no publication date and no primary category. -/
def rec0 : ArxivResult :=
  { title := "T", authorNames := ["A B"], published := none,
    primaryCategory := none, entryId := "E", shortId := "1234.5678" }

/-- The BibTeX text `format_arxiv_to_bibtex` produces for `rec0`. -/
def bib0 : String :=
  match format_arxiv_to_bibtex rec0 with
  | .ok s => s
  | .error e => e

set_option maxRecDepth 100000 in
/-- Counterexample to C4 as stated: the arXiv BibTeX converter does not
omit empty or absent fields — on a record with no primary category and no
publication date it emits `primaryClass={{}}` (so the output contains
empty braces) and `year={{None}}`. -/
theorem converters_empty_field_counterexample :
    format_arxiv_to_bibtex rec0 = .ok bib0 ∧
    containsSub bib0 "primaryClass=\x7b\x7b\x7d\x7d" = true ∧
    containsSub bib0 "year=\x7b\x7bNone\x7d\x7d" = true ∧
    containsSub bib0 "\x7b\x7d" = true :=
  ⟨rfl, by decide, by decide, by decide⟩

/-- C4 (amended): the empty-field-omission rule holds for both RIS
converters (every kept line is the terminator or a tag line with a
non-empty value) and for the Crossref BibTeX field loop (falsy fields are
skipped, and every emitted field line carries a non-empty escaped value),
but **not** for the arXiv BibTeX converter, which always emits all seven
fields — in particular `primaryClass=\x7b\x7b\x7d\x7d` whenever the
record has no primary category. -/
theorem converters_omit_empty_fields_amended :
    (∀ r : ArxivResult,
      ∀ ln ∈ (risLinesArxiv r).filter (fun ln => ln ≠ ""), risShape ln) ∧
    (∀ (m : Json) (ls : List String), risLinesCrossref m = .ok ls →
      ∀ ln ∈ ls.filter (fun ln => ln ≠ ""), risShape ln) ∧
    (∀ fields : List (String × Json),
      bibtexFieldLines fields =
        bibtexFieldLines (fields.filter (fun kv => truthy kv.2))) ∧
    (∀ (fields : List (String × Json)) (ls : List String),
      bibtexFieldLines fields = .ok ls →
      ∀ ln ∈ ls, ∃ k w, w ≠ "" ∧ ln = "  " ++ k ++ "=\x7b\x7b" ++ w ++ "\x7d\x7d,") ∧
    (∀ (r : ArxivResult) (bib : String), format_arxiv_to_bibtex r = .ok bib →
      r.primaryCategory = none →
      containsSub bib "primaryClass=\x7b\x7b\x7d\x7d" = true) := by
  refine ⟨?_, ?_, bibtexFieldLines_skipsFalsy, bibtexFieldLines_shape, ?_⟩
  · intro r ln hln
    obtain ⟨hmem, hne⟩ := List.mem_filter.mp hln
    exact risShape_of ln (risLinesArxiv_mem r ln hmem) (by simpa using hne)
  · intro m ls hok ln hln
    obtain ⟨hmem, hne⟩ := List.mem_filter.mp hln
    exact risShape_of ln (risLinesCrossref_mem m ls hok ln hmem) (by simpa using hne)
  · intro r bib hok hnone
    obtain ⟨key, hb⟩ := format_arxiv_to_bibtex_ok_shape r bib hok
    rw [hb, hnone]
    simp only [Option.getD_none]
    simp only [strAppendAssoc]
    iterate 16 refine containsSub_append_right _ _ _ ?_
    rw [strEmptyAppend]
    rw [← strAppendAssoc "  primaryClass=\x7b\x7b" "\x7d\x7d,\n" _]
    refine containsSub_append_of_left _ _ _ ?_
    rfl

set_option maxRecDepth 100000 in
/-- Witness: the amended C4 statement instantiated at concrete inputs —
an arXiv record (`rec1`), the empty Crossref record, a one-field BibTeX
field list, and the degenerate record `rec0`. -/
theorem converters_omit_empty_fields_amended_witness :
    risShape "PY  - 2021" ∧
    risShape "TY  - GEN" ∧
    (∃ k w, w ≠ "" ∧
      "  title=\x7b\x7bA\x7d\x7d," = "  " ++ k ++ "=\x7b\x7b" ++ w ++ "\x7d\x7d,") ∧
    containsSub bib0 "primaryClass=\x7b\x7b\x7d\x7d" = true :=
  ⟨converters_omit_empty_fields_amended.1 rec1 "PY  - 2021" (by decide),
   converters_omit_empty_fields_amended.2.1 (Json.obj [])
     ["TY  - GEN", "", "ER  -"] rfl "TY  - GEN" (by decide),
   converters_omit_empty_fields_amended.2.2.2.1 [("title", Json.str "A")]
     ["  title=\x7b\x7bA\x7d\x7d,"] rfl "  title=\x7b\x7bA\x7d\x7d," (by decide),
   converters_omit_empty_fields_amended.2.2.2.2 rec0 bib0 rfl rfl⟩

/-! ## C7: the empty-input failure -/

/-- Counterexample to C7 as stated: empty input does fail with no calls,
but its message is the dedicated empty-input message of app.py:622, which
differs from the fixed advisory message of app.py:734 that a run
exhausting all tiers produces (shown on the concrete no-match run of the
input `"x"` against the always-failing environment). -/
theorem resolve_one_empty_message_counterexample :
    resolve_one envEmpty "" 85 = .ok (emptyFail "", []) ∧
    resolve_one envEmpty "x" 85 =
      .ok (advisoryFail "x",
        [Call.arxSearch "ti:\"x\"" 12, Call.arxSearch "x" 12,
         Call.ssSearch "x" 10, Call.oaSearch "x" 10, Call.crSearch "x" 10]) ∧
    (emptyFail "").ok = false ∧
    (emptyFail "").message = some emptyInputMsg ∧
    (advisoryFail "x").message = some advisoryMsg ∧
    emptyInputMsg ≠ advisoryMsg :=
  ⟨rfl, rfl, rfl, rfl, rfl, by decide⟩

/-- C7 (amended): for every environment, threshold and input whose strip
is empty, `resolve_one` returns a failure result with no network calls —
but the message it carries is the dedicated empty-input message, which is
not the advisory message used when every tier fails. -/
theorem resolve_one_empty_input_amended :
    (∀ (env : Env) (raw : String) (threshold : Int), pyStrip raw = "" →
      resolve_one env raw threshold = .ok (emptyFail raw, [])) ∧
    (∀ raw, (emptyFail raw).ok = false ∧
      (emptyFail raw).message = some emptyInputMsg) ∧
    emptyInputMsg ≠ advisoryMsg := by
  refine ⟨?_, fun raw => ⟨rfl, rfl⟩, by decide⟩
  intro env raw threshold h
  unfold resolve_one
  simp only []
  rw [if_pos h]

/-- Witness: the amended C7 statement at the whitespace-only input
`" "` against the always-failing environment. -/
theorem resolve_one_empty_input_amended_witness :
    resolve_one envEmpty " " 0 = .ok (emptyFail " ", []) ∧
    ((emptyFail " ").ok = false ∧
      (emptyFail " ").message = some emptyInputMsg) ∧
    emptyInputMsg ≠ advisoryMsg :=
  ⟨resolve_one_empty_input_amended.1 envEmpty " " 0 (by decide),
   resolve_one_empty_input_amended.2.1 " ",
   resolve_one_empty_input_amended.2.2⟩

/-! ## C8: the title-guessing cascade -/

theorem cascadeFirst_cons_some (x : Option String) (rest : List (Option String))
    (dflt v : String) (hx : x = some v) : cascadeFirst (x :: rest) dflt = v := by
  unfold cascadeFirst
  rw [hx]
  rfl

theorem cascadeFirst_cons_none (x : Option String) (rest : List (Option String))
    (dflt : String) (hx : x = none) :
    cascadeFirst (x :: rest) dflt = cascadeFirst rest dflt := by
  unfold cascadeFirst
  rw [hx]
  rfl

/-- The comma tail of `guess_title` agrees with the spec's comma step. -/
theorem commaCase (t : String) :
    (if t.toList.contains ',' then
       match ((splitOnChars [','] t.toList).map pyStrip).filter (· ≠ "") with
       | [] => pyRStripDots (pyStrip t)
       | c :: cs => pyRStripDots (pyStrip (maxByLenFirst c cs))
     else pyRStripDots (pyStrip t)) =
    cascadeFirst [commaStep t] (pyRStripDots (pyStrip t)) := by
  unfold commaStep cascadeFirst
  by_cases hc : t.toList.contains ','
  · rw [if_pos hc, if_pos hc]
    rcases hk : ((splitOnChars [','] t.toList).map pyStrip).filter (· ≠ "")
        with _ | ⟨c, cs⟩
    · rfl
    · rfl
  · rw [if_neg hc, if_neg hc]
    rfl

/-- The segment-then-comma tail of `guess_title` agrees with the spec's
cascade over those two steps. -/
theorem segCommaCase (t : String) :
    (match (match ((splitOnChars ['.', ';'] t.toList).map pyStrip).filter (· ≠ "") with
            | [] => (none : Option String)
            | p :: ps =>
              if (maxByLenFirst p ps).length > 15 then
                some (pyRStripDots (pyStrip (maxByLenFirst p ps)))
              else none) with
     | some r => r
     | none =>
       if t.toList.contains ',' then
         match ((splitOnChars [','] t.toList).map pyStrip).filter (· ≠ "") with
         | [] => pyRStripDots (pyStrip t)
         | c :: cs => pyRStripDots (pyStrip (maxByLenFirst c cs))
       else pyRStripDots (pyStrip t)) =
    cascadeFirst [longestSegmentStep t, commaStep t]
      (pyRStripDots (pyStrip t)) := by
  rcases hp : ((splitOnChars ['.', ';'] t.toList).map pyStrip).filter (· ≠ "")
      with _ | ⟨p, ps⟩
  · rw [cascadeFirst_cons_none _ _ _ (show longestSegmentStep t = none by
      unfold longestSegmentStep
      rw [hp])]
    exact commaCase t
  · simp only []
    by_cases hl : (maxByLenFirst p ps).length > 15
    · rw [if_pos hl, cascadeFirst_cons_some _ _ _ _
        (show longestSegmentStep t =
            some (pyRStripDots (pyStrip (maxByLenFirst p ps))) by
          unfold longestSegmentStep
          rw [hp]
          exact if_pos hl)]
    · rw [if_neg hl, cascadeFirst_cons_none _ _ _
        (show longestSegmentStep t = none by
          unfold longestSegmentStep
          rw [hp]
          exact if_neg hl)]
      exact commaCase t

/-- The whole post-cleaning body of `guess_title`, on an arbitrary cleaned
string, agrees with the spec's three-step cascade. -/
theorem guessBodyCase (u : String) :
    guessBodyL u =
    cascadeFirst [quotedStep u, longestSegmentStep u, commaStep u]
      (pyRStripDots (pyStrip u)) := by
  unfold guessBodyL
  simp only []
  rcases hq : quotedScan u.toList with _ | g
  · rw [cascadeFirst_cons_none _ _ _ (show quotedStep u = none by
      unfold quotedStep
      rw [hq])]
    exact segCommaCase u
  · simp only []
    by_cases hg : g.length ≥ 6
    · rw [if_pos hg, cascadeFirst_cons_some _ _ _ _ (show quotedStep u =
          some (pyRStripDots (pyStrip (String.mk g))) by
        unfold quotedStep
        rw [hq]
        exact if_pos hg)]
    · rw [if_neg hg, cascadeFirst_cons_none _ _ _ (show quotedStep u = none by
        unfold quotedStep
        rw [hq]
        exact if_neg hg)]
      exact segCommaCase u

/-- C8: `guess_title` applies the spec's heuristic cascade in order —
clean the input (strip a leading enumeration marker, cut from the word
`arxiv` on, drop URLs), then return the first applicable of: a quoted
span of length at least 6, the longest `.`/`;` segment when longer than
15 characters, the longest comma-separated chunk — and otherwise the
cleaned text verbatim, so some candidate is always produced. -/
theorem guess_title_is_cascade (text : String) :
    guess_title text = guessTitleSpec text := by
  by_cases h : text = ""
  · rw [h]
    rfl
  · show (if text = "" then "" else _) = (if text = "" then "" else _)
    rw [if_neg h, if_neg h]
    exact guessBodyCase (cleanedInput text)

/-! ## C9: the entry splitter -/

/-- The accumulation loop of `split_entries` is the spec's fold over
`seStep` followed by the final flush of the running entry. -/
theorem seLoop_foldl (lines : List String) :
    ∀ (entries : List String) (cur : String),
      seLoop lines entries cur =
        (if (lines.foldl seStep (entries, cur)).2 ≠ "" then
          (lines.foldl seStep (entries, cur)).1 ++
            [pyStrip (lines.foldl seStep (entries, cur)).2]
         else (lines.foldl seStep (entries, cur)).1) := by
  induction lines with
  | nil => intro e c; rfl
  | cons line rest ih =>
    intro e c
    rw [List.foldl_cons]
    unfold seLoop
    by_cases h1 : pyStrip line = ""
    · rw [if_pos h1, show seStep (e, c) line = (e, c) by
        unfold seStep
        rw [if_pos h1]]
      exact ih e c
    · rw [if_neg h1]
      by_cases h2 : markerTest line ∧ c ≠ ""
      · rw [if_pos h2, show seStep (e, c) line = (e ++ [pyStrip c], pyStrip line) by
          unfold seStep
          rw [if_neg h1, if_pos h2]]
        exact ih _ _
      · rw [if_neg h2, show seStep (e, c) line =
            (e, if c ≠ "" then pyStrip (c ++ " " ++ pyStrip line) else pyStrip line) by
          unfold seStep
          rw [if_neg h1, if_neg h2]]
        exact ih _ _

/-- C9: `split_entries` accumulates non-blank lines into a running entry,
starts a new entry at a line bearing a leading enumeration marker except
when no entry text has accumulated yet, and falls back to
one-entry-per-non-blank-line when exactly one entry results from an input
holding multiple non-blank lines; `"[1] Foo.\n[2] Bar."` yields exactly
the two numbered entries and three unnumbered non-blank lines yield one
entry per line. -/
theorem split_entries_is_spec :
    (∀ raw, split_entries raw = splitEntriesSpec raw) ∧
    split_entries "[1] Foo.\n[2] Bar." = ["[1] Foo.", "[2] Bar."] ∧
    split_entries "alpha\nbeta\ngamma" = ["alpha", "beta", "gamma"] := by
  refine ⟨?_, rfl, rfl⟩
  intro raw
  unfold split_entries splitEntriesSpec
  by_cases h : pyStrip raw = ""
  · rw [if_pos h, if_pos h]
  · rw [if_neg h, if_neg h]
    simp only []
    rw [seLoop_foldl]

end App
